/-
Verification of the three-statement financial-model generator
(`generate_model.py`).  The generator writes an Excel workbook whose
historical columns (FY21-FY25, period indices 0-4) hold literal data and
whose forecast columns (FY26-FY30, indices 5-9) hold formulas.  We embed
the workbook's numeric semantics exactly over ℚ: every generated formula
is translated cell-for-cell into rational arithmetic, historical literals
are transcribed verbatim, and the per-column forecast loops become a step
function on a per-period state.
-/
import Mathlib

/-! ### Assumption sheet data (rows 15-69; percentage rows are stored
divided by 100, exactly as `_write_values` does with `is_pct=True`). -/

def tollGrowthInput : List ℚ :=
  [-4.2/100, 15.1/100, 22.1/100, 8.7/100, 6.2/100, 5.5/100, 5.0/100, 4.5/100, 4.0/100, 3.8/100]

def otherGrowthInput : List ℚ :=
  [2.0/100, -2.5/100, 6.8/100, -1.8/100, 10.4/100, 3.0/100, 3.0/100, 3.0/100, 3.0/100, 3.0/100]

def opexPctInput : List ℚ :=
  [35.2/100, 32.5/100, 31.5/100, 30.7/100, 30.8/100, 30.5/100, 30.0/100, 29.5/100, 29.0/100, 28.8/100]

def empShareInput : List ℚ :=
  [24/100, 25/100, 24/100, 24/100, 23/100, 25/100, 25/100, 25/100, 25/100, 25/100]

def roadShareInput : List ℚ :=
  [34/100, 33/100, 33/100, 32/100, 31/100, 33/100, 33/100, 33/100, 33/100, 33/100]

def daPctInput : List ℚ :=
  [2.7/100, 2.7/100, 2.7/100, 2.7/100, 2.8/100, 2.8/100, 2.8/100, 2.8/100, 2.8/100, 2.8/100]

def daPpeInput : List ℚ :=
  [40/100, 40/100, 40/100, 40/100, 40/100, 40/100, 40/100, 40/100, 40/100, 40/100]

def daIntangInput : List ℚ :=
  [60/100, 60/100, 60/100, 60/100, 60/100, 60/100, 60/100, 60/100, 60/100, 60/100]

def codInput : List ℚ :=
  [4.6/100, 4.0/100, 4.2/100, 4.5/100, 4.6/100, 4.7/100, 4.7/100, 4.8/100, 4.8/100, 4.8/100]

def taxRateInput : List ℚ :=
  [-1.5/100, 14.0/100, 14.3/100, 14.4/100, 15.0/100, 15.0/100, 15.0/100, 15.0/100, 15.0/100, 15.0/100]

def statTaxInput : List ℚ :=
  [30/100, 30/100, 30/100, 30/100, 30/100, 30/100, 30/100, 30/100, 30/100, 30/100]

def currBorrowPctInput : List ℚ :=
  [6/100, 5.5/100, 5.5/100, 5/100, 5/100, 5/100, 5/100, 5/100, 5/100, 5/100]

def drpRateInput : List ℚ :=
  [1/100, 1/100, 1/100, 1/100, 1/100, 1/100, 1/100, 1/100, 1/100, 1/100]

def capexInput : List ℚ :=
  [628, 1092, 1805, 1420, 1200, 1300, 1350, 1400, 1250, 1200]

def recDaysInput : List ℚ :=
  [28, 26, 25, 24, 24, 24, 24, 24, 24, 24]

def payDaysInput : List ℚ :=
  [55, 52, 50, 48, 48, 48, 48, 48, 48, 48]

def ocaGrInput : List ℚ :=
  [3/100, 3/100, 3/100, 3/100, 3/100, 3/100, 3/100, 3/100, 3/100, 3/100]

def jvGrInput : List ℚ :=
  [-2/100, -2/100, -2/100, -2/100, -2/100, -2/100, -2/100, -2/100, -2/100, -2/100]

def oncaGrInput : List ℚ :=
  [2/100, 2/100, 2/100, 2/100, 2/100, 2/100, 2/100, 2/100, 2/100, 2/100]

def oclGrInput : List ℚ :=
  [3/100, 3/100, 3/100, 3/100, 3/100, 3/100, 3/100, 3/100, 3/100, 3/100]

def onclGrInput : List ℚ :=
  [2/100, 2/100, 2/100, 2/100, 2/100, 2/100, 2/100, 2/100, 2/100, 2/100]

def dpsInput : List ℚ :=
  [41.0, 53.0, 62.0, 64.5, 66.0, 68.0, 70.0, 72.0, 74.0, 76.0]

def sharesInput : List ℚ :=
  [1932, 1948, 1964, 1978, 1990, 2000, 2010, 2020, 2025, 2030]

def netDebtInput : List ℚ :=
  [1200, 2050, 2800, 600, 300, 400, 350, 300, 200, 100]

def otherOpsGrInput : List ℚ :=
  [2/100, 2/100, 2/100, 2/100, 2/100, 2/100, 2/100, 2/100, 2/100, 2/100]

def equityIssInput : List ℚ :=
  [1/100, 1/100, 1/100, 1/100, 1/100, 1/100, 1/100, 1/100, 1/100, 1/100]

def constrGrInput : List ℚ :=
  [3/100, 3/100, 3/100, 3/100, 3/100, 3/100, 3/100, 3/100, 3/100, 3/100]

def mat12Input : List ℚ :=
  [5.3/100, 4.9/100, 4.8/100, 4.7/100, 4.2/100, 5/100, 5/100, 5/100, 5/100, 5/100]

def mat25Input : List ℚ :=
  [25/100, 22/100, 22/100, 26/100, 26/100, 26/100, 26/100, 26/100, 26/100, 26/100]

/-- The assumption table consumed by the forecast formulas (one field per
referenced Assumptions-sheet row, each a 10-entry series FY21-FY30). -/
structure Assumptions where
  tollGrowth : List ℚ      -- row 15, toll revenue growth (input)
  otherGrowth : List ℚ     -- row 17, other revenue growth (input)
  opexPct : List ℚ         -- row 21, opex as % of revenue (input)
  empShare : List ℚ        -- row 24, employee costs share of total opex
  roadShare : List ℚ       -- row 25, road ops share of total opex
  daPct : List ℚ           -- row 28, D&A as % of NCA (input)
  daPpe : List ℚ           -- row 30, D&A allocation to PP&E
  daIntang : List ℚ        -- row 31, D&A allocation to intangibles
  codPct : List ℚ          -- row 34, average cost of debt (input)
  taxRate : List ℚ         -- row 36, effective tax rate (input)
  statTax : List ℚ         -- row 38, statutory tax rate
  currBorrowPct : List ℚ   -- row 39, current borrowings as % of total debt
  drpRate : List ℚ         -- row 40, DRP / dilution rate
  capex : List ℚ           -- row 43, capex
  recDays : List ℚ         -- row 44, trade receivables days
  payDays : List ℚ         -- row 45, trade payables days
  ocaGr : List ℚ           -- row 46, other current assets growth rate
  jvGr : List ℚ            -- row 47, JV investments growth rate
  oncaGr : List ℚ          -- row 48, other NCA growth rate
  oclGr : List ℚ           -- row 49, other current liabilities growth rate
  onclGr : List ℚ          -- row 50, other NCL growth rate
  dps : List ℚ             -- row 53, dividend per security (cents)
  shares : List ℚ          -- row 54, securities on issue
  netDebt : List ℚ         -- row 55, net debt issuance / (repayment)
  otherOpsGr : List ℚ      -- row 56, other operating adj. growth rate
  equityIss : List ℚ       -- row 57, equity issuance rate (DRP)
  constrGr : List ℚ        -- row 60, construction revenue growth
  mat12 : List ℚ           -- row 61, debt maturity 1-2yr as % of total
  mat25 : List ℚ           -- row 62, debt maturity 2-5yr as % of total

/-- The literal assumption data written by the script. -/
def baseAssumptions : Assumptions :=
  { tollGrowth := tollGrowthInput
    otherGrowth := otherGrowthInput
    opexPct := opexPctInput
    empShare := empShareInput
    roadShare := roadShareInput
    daPct := daPctInput
    daPpe := daPpeInput
    daIntang := daIntangInput
    codPct := codInput
    taxRate := taxRateInput
    statTax := statTaxInput
    currBorrowPct := currBorrowPctInput
    drpRate := drpRateInput
    capex := capexInput
    recDays := recDaysInput
    payDays := payDaysInput
    ocaGr := ocaGrInput
    jvGr := jvGrInput
    oncaGr := oncaGrInput
    oclGr := oclGrInput
    onclGr := onclGrInput
    dps := dpsInput
    shares := sharesInput
    netDebt := netDebtInput
    otherOpsGr := otherOpsGrInput
    equityIss := equityIssInput
    constrGr := constrGrInput
    mat12 := mat12Input
    mat25 := mat25Input }

/-- The six scenario-toggle cells B5-B10.  The script writes the literal
token "Forecast" into each. -/
structure Toggles where
  toll : String       -- B5, toll revenue growth method
  other : String      -- B6, other revenue growth method
  opex : String       -- B7, opex % method
  da : String         -- B8, D&A % method
  cod : String        -- B9, cost of debt method
  taxTok : String     -- B10, tax rate method

def defaultToggles : Toggles :=
  { toll := "Forecast", other := "Forecast", opex := "Forecast",
    da := "Forecast", cod := "Forecast", taxTok := "Forecast" }

/-- Semantics of one cell of an active driver row written by
`_write_active_row`: historical columns (periods 0-4) are a direct
reference to the input row; forecast columns hold
IF(toggle="3yr Avg", AVERAGE(E..G of the input row), same-column input),
and AVERAGE(E..G) is the mean of input periods 2, 3, 4. -/
def activeVal (tog : String) (inp : List ℚ) (p : Nat) : ℚ :=
  if 5 ≤ p then
    (if tog = "3yr Avg" then (inp.getD 2 0 + inp.getD 3 0 + inp.getD 4 0) / 3
     else inp.getD p 0)
  else inp.getD p 0

/-! ### Historical data (FY21-FY25), transcribed with the same
derivations (list comprehensions become `List.zipWith`). -/

def hist_toll_rev : List ℚ := [2459, 2830, 3455, 3756, 3990]
def hist_other_rev : List ℚ := [319, 311, 332, 326, 360]
def hist_total_rev : List ℚ := List.zipWith (· + ·) hist_toll_rev hist_other_rev

def hist_employee : List ℚ := [-236, -251, -280, -298, -313]
def hist_road_ops : List ℚ := [-340, -333, -380, -395, -418]
def hist_corp_admin : List ℚ := [-401, -436, -535, -562, -608]
def hist_total_opex : List ℚ :=
  List.zipWith (· + ·) (List.zipWith (· + ·) hist_employee hist_road_ops) hist_corp_admin

def hist_ebitda : List ℚ := List.zipWith (· + ·) hist_total_rev hist_total_opex
def hist_da : List ℚ := [-856, -880, -905, -930, -958]
def hist_ebit : List ℚ := List.zipWith (· + ·) hist_ebitda hist_da

def hist_net_finance : List ℚ := [-907, -821, -963, -1093, -1150]
def hist_pbt : List ℚ := List.zipWith (· + ·) hist_ebit hist_net_finance
def hist_tax : List ℚ := [7, -141, -270, -249, -282]
def hist_npat : List ℚ := List.zipWith (· + ·) hist_pbt hist_tax

def hist_cash : List ℚ := [2548, 3145, 2780, 2350, 2520]
def hist_recv : List ℚ := [213, 224, 260, 269, 286]
def hist_other_ca : List ℚ := [195, 210, 225, 230, 240]
def hist_total_ca : List ℚ :=
  List.zipWith (· + ·) (List.zipWith (· + ·) hist_cash hist_recv) hist_other_ca

def hist_ppe : List ℚ := [6125, 6850, 7900, 8100, 8050]
def hist_intangibles : List ℚ := [22450, 23100, 24200, 24650, 24800]
def hist_invest_jv : List ℚ := [1820, 1750, 1680, 1620, 1580]
def hist_other_nca : List ℚ := [1250, 1380, 1520, 1580, 1620]
def hist_total_nca : List ℚ :=
  List.zipWith (· + ·)
    (List.zipWith (· + ·) (List.zipWith (· + ·) hist_ppe hist_intangibles) hist_invest_jv)
    hist_other_nca

def hist_total_assets : List ℚ := List.zipWith (· + ·) hist_total_ca hist_total_nca

def hist_payables : List ℚ := [485, 510, 555, 530, 550]
def hist_current_debt : List ℚ := [1250, 1400, 1600, 1300, 1200]
def hist_other_cl : List ℚ := [580, 620, 680, 710, 740]
def hist_total_cl : List ℚ :=
  List.zipWith (· + ·) (List.zipWith (· + ·) hist_payables hist_current_debt) hist_other_cl

def hist_nc_debt : List ℚ := [19580, 21230, 23430, 23730, 23830]
def hist_total_borrow : List ℚ := List.zipWith (· + ·) hist_current_debt hist_nc_debt
def hist_other_ncl : List ℚ := [2350, 2480, 2620, 2700, 2780]
def hist_total_ncl : List ℚ := List.zipWith (· + ·) hist_nc_debt hist_other_ncl

def hist_total_liab : List ℚ := List.zipWith (· + ·) hist_total_cl hist_total_ncl

def hist_share_cap : List ℚ := [13845, 14250, 14680, 15020, 15310]
def hist_reserves : List ℚ := [358, 380, 380, 400, 412]

/-- Historical retained earnings: the balancing plug so that
Assets = Liabilities & Equity exactly. -/
def hist_retained : List ℚ :=
  List.zipWith (· - ·)
    (List.zipWith (· - ·) (List.zipWith (· - ·) hist_total_assets hist_total_liab) hist_share_cap)
    hist_reserves

def hist_total_eq : List ℚ :=
  List.zipWith (· + ·) (List.zipWith (· + ·) hist_share_cap hist_retained) hist_reserves

def hist_total_le : List ℚ := List.zipWith (· + ·) hist_total_liab hist_total_eq

def hist_wc_change : List ℚ := [-45, 30, -60, 25, -15]
def hist_other_ops : List ℚ := [120, 135, 150, 160, 170]
def hist_cfo_da : List ℚ := hist_da.map (fun x => -x)
def hist_net_cfo : List ℚ :=
  List.zipWith (· + ·)
    (List.zipWith (· + ·) (List.zipWith (· + ·) hist_npat hist_cfo_da) hist_wc_change)
    hist_other_ops

def hist_capex_cf : List ℚ := [-628, -1092, -1805, -1420, -1200]
def hist_other_inv : List ℚ := [-150, -80, -120, -100, -90]
def hist_net_cfi : List ℚ := List.zipWith (· + ·) hist_capex_cf hist_other_inv

def hist_debt_proc : List ℚ := [1200, 2050, 2800, 600, 300]
def hist_div_paid : List ℚ := [-792, -1032, -1218, -1276, -1313]
def hist_equity_iss : List ℚ := [405, 450, 430, 340, 290]
def hist_net_cff : List ℚ :=
  List.zipWith (· + ·) (List.zipWith (· + ·) hist_debt_proc hist_div_paid) hist_equity_iss

def hist_net_change : List ℚ :=
  List.zipWith (· + ·) (List.zipWith (· + ·) hist_net_cfo hist_net_cfi) hist_net_cff

/-- Historical opening cash: FY21 opening is 2285 (FY20 closing); later
years open at the prior year's closing cash. -/
def hist_open_cash : List ℚ := 2285 :: hist_cash.take 4

/-- Historical FX & other: the residual reconciling literal closing cash
against opening cash plus net change. -/
def hist_fx_other : List ℚ :=
  List.zipWith (· - ·) (List.zipWith (· - ·) hist_cash hist_open_cash) hist_net_change

def hist_construction_rev : List ℚ := [180, 320, 540, 420, 350]

def hist_melb_rev : List ℚ := [820, 920, 1080, 1150, 1220]
def hist_melb_ebitda : List ℚ := [620, 710, 840, 900, 960]
def hist_syd_rev : List ℚ := [1050, 1220, 1520, 1680, 1800]
def hist_syd_ebitda : List ℚ := [750, 890, 1120, 1250, 1350]
def hist_bris_rev : List ℚ := [430, 480, 560, 600, 640]
def hist_bris_ebitda : List ℚ := [310, 350, 410, 440, 470]
def hist_na_rev : List ℚ := [478, 521, 627, 652, 690]
def hist_na_ebitda : List ℚ := [120, 150, 205, 230, 260]

def hist_intang_additions : List ℚ := [530, 680, 1150, 880, 720]

def hist_maturity_1_2yr : List ℚ := [1100, 1250, 1400, 1150, 1050]
def hist_maturity_2_5yr : List ℚ := [5200, 5650, 6300, 6400, 6500]

/-! ### Per-period workbook state and the forecast step -/

/-- All line-item values of one period (one workbook column) that the
generated formulas read or write.  Income Statement, Balance Sheet,
Cash Flow Statement and the Notes lines the claims concern. -/
structure Cols where
  tollRev : ℚ
  otherRev : ℚ
  totalRev : ℚ
  emp : ℚ
  road : ℚ
  corp : ℚ
  topex : ℚ
  ebitda : ℚ
  da : ℚ
  ebit : ℚ
  nfc : ℚ
  pbt : ℚ
  taxv : ℚ
  npat : ℚ
  cash : ℚ
  recv : ℚ
  oca : ℚ
  tca : ℚ
  ppe : ℚ
  intang : ℚ
  jv : ℚ
  onca : ℚ
  tnca : ℚ
  ta : ℚ
  pay : ℚ
  cd : ℚ
  ocl : ℚ
  tcl : ℚ
  ncd : ℚ
  oncl : ℚ
  tncl : ℚ
  tb : ℚ
  tl : ℚ
  sc : ℚ
  re : ℚ
  rsv : ℚ
  teq : ℚ
  tle : ℚ
  bsCheck : ℚ
  cfWc : ℚ
  cfOtherOps : ℚ
  cfNetOps : ℚ
  cfCapex : ℚ
  cfOtherInv : ℚ
  cfNetInv : ℚ
  cfDebt : ℚ
  cfDiv : ℚ
  cfEquity : ℚ
  cfNetFin : ℚ
  cfNetChange : ℚ
  cfFx : ℚ
  cfOpen : ℚ
  cfClose : ℚ
  nConstr : ℚ
  nIntangOpen : ℚ
  nIntangAdd : ℚ
  nIntangAmort : ℚ
  nIntangClose : ℚ
  nCurrDebt : ℚ
  nTotalDebt : ℚ
  nMatW1 : ℚ
  nMat12 : ℚ
  nMat25 : ℚ
  nMatOver5 : ℚ
  nMatTotal : ℚ

/-- One forecast column (period `p`, 5 ≤ p ≤ 9) computed from the prior
column `prev`, translating every generated forecast formula.  The
evaluation order inside matches the dependency order of the formulas:
Income Statement, then non-cash Balance Sheet lines, then the Cash Flow
Statement, then the Balance Sheet cash cell, totals and check. -/
def forecastStep (A : Assumptions) (t : Toggles) (p : Nat) (prev : Cols) : Cols :=
  -- Income Statement forecast formulas
  let tollRev := prev.tollRev * (1 + activeVal t.toll A.tollGrowth p)
  let otherRev := prev.otherRev * (1 + activeVal t.other A.otherGrowth p)
  let totalRev := tollRev + otherRev
  let emp := -totalRev * activeVal t.opex A.opexPct p * A.empShare.getD p 0
  let road := -totalRev * activeVal t.opex A.opexPct p * A.roadShare.getD p 0
  let corp := -totalRev * activeVal t.opex A.opexPct p - emp - road
  let topex := emp + road + corp
  let ebitda := totalRev + topex
  let da := -prev.tnca * activeVal t.da A.daPct p
  let ebit := ebitda + da
  let nfc := -prev.tb * activeVal t.cod A.codPct p
  let pbt := ebit + nfc
  let taxv := -pbt * activeVal t.taxTok A.taxRate p
  let npat := pbt + taxv
  -- Balance Sheet forecast formulas (non-cash lines)
  let recv := totalRev / 365 * A.recDays.getD p 0
  let oca := prev.oca * (1 + A.ocaGr.getD p 0)
  let ppe := prev.ppe + A.capex.getD p 0 + da * A.daPpe.getD p 0
  let intang := prev.intang + da * A.daIntang.getD p 0
  let jv := prev.jv * (1 + A.jvGr.getD p 0)
  let onca := prev.onca * (1 + A.oncaGr.getD p 0)
  let tnca := ppe + intang + jv + onca
  let pay := -topex / 365 * A.payDays.getD p 0
  let cd := (prev.tb + A.netDebt.getD p 0) * A.currBorrowPct.getD p 0
  let ocl := prev.ocl * (1 + A.oclGr.getD p 0)
  let ncd := prev.tb + A.netDebt.getD p 0 - cd
  let oncl := prev.oncl * (1 + A.onclGr.getD p 0)
  let tcl := pay + cd + ocl
  let tncl := ncd + oncl
  let tb := cd + ncd
  let tl := tcl + tncl
  let sc := prev.sc * (1 + A.drpRate.getD p 0)
  let re := prev.re + npat - A.dps.getD p 0 * A.shares.getD p 0 / 100
  let rsv := prev.rsv
  let teq := sc + re + rsv
  let tle := tl + teq
  -- Cash Flow Statement forecast formulas
  let cfWc := -(recv - prev.recv) + (pay - prev.pay)
  let cfOtherOps := prev.cfOtherOps * (1 + A.otherOpsGr.getD p 0)
  let cfNetOps := npat + -da + cfWc + cfOtherOps
  let cfCapex := -A.capex.getD p 0
  let cfOtherInv := prev.cfOtherInv
  let cfNetInv := cfCapex + cfOtherInv
  let cfDebt := A.netDebt.getD p 0
  let cfDiv := -A.dps.getD p 0 * A.shares.getD p 0 / 100
  let cfEquity := prev.sc * A.equityIss.getD p 0
  let cfNetFin := cfDebt + cfDiv + cfEquity
  let cfNetChange := cfNetOps + cfNetInv + cfNetFin
  let cfFx := (0 : ℚ)
  let cfOpen := prev.cash
  let cfClose := cfOpen + cfNetChange + cfFx
  -- Balance Sheet cash cell, totals and check
  let cash := cfClose
  let tca := cash + recv + oca
  let ta := tca + tnca
  let bsCheck := ta - tle
  -- Notes forecast formulas
  let nConstr := prev.nConstr * (1 + A.constrGr.getD p 0)
  let nIntangOpen := prev.nIntangClose
  let nIntangAdd := nConstr
  let nIntangAmort := da * A.daIntang.getD p 0
  let nIntangClose := nIntangOpen + nIntangAdd + nIntangAmort
  let nCurrDebt := cd
  let nTotalDebt := tb
  let nMatW1 := nCurrDebt
  let nMat12 := nTotalDebt * A.mat12.getD p 0
  let nMat25 := nTotalDebt * A.mat25.getD p 0
  let nMatOver5 := nTotalDebt - nMatW1 - nMat12 - nMat25
  let nMatTotal := nMatW1 + nMat12 + nMat25 + nMatOver5
  { tollRev := tollRev, otherRev := otherRev, totalRev := totalRev,
    emp := emp, road := road, corp := corp, topex := topex,
    ebitda := ebitda, da := da, ebit := ebit, nfc := nfc, pbt := pbt,
    taxv := taxv, npat := npat,
    cash := cash, recv := recv, oca := oca, tca := tca, ppe := ppe,
    intang := intang, jv := jv, onca := onca, tnca := tnca, ta := ta,
    pay := pay, cd := cd, ocl := ocl, tcl := tcl, ncd := ncd,
    oncl := oncl, tncl := tncl, tb := tb, tl := tl, sc := sc, re := re,
    rsv := rsv, teq := teq, tle := tle, bsCheck := bsCheck,
    cfWc := cfWc, cfOtherOps := cfOtherOps, cfNetOps := cfNetOps,
    cfCapex := cfCapex, cfOtherInv := cfOtherInv, cfNetInv := cfNetInv,
    cfDebt := cfDebt, cfDiv := cfDiv, cfEquity := cfEquity,
    cfNetFin := cfNetFin, cfNetChange := cfNetChange, cfFx := cfFx,
    cfOpen := cfOpen, cfClose := cfClose,
    nConstr := nConstr, nIntangOpen := nIntangOpen,
    nIntangAdd := nIntangAdd, nIntangAmort := nIntangAmort,
    nIntangClose := nIntangClose, nCurrDebt := nCurrDebt,
    nTotalDebt := nTotalDebt, nMatW1 := nMatW1, nMat12 := nMat12,
    nMat25 := nMat25, nMatOver5 := nMatOver5, nMatTotal := nMatTotal }

/-- Notes intangible closing balance at historical period `i`:
Closing = Opening + Additions + Amortisation, where the FY21 opening is
the literal 22100, later openings are the prior closing, and the
amortisation charge is the Income Statement D&A times the
D&A-to-intangibles allocation. -/
def histIntangClose (A : Assumptions) : Nat → ℚ
  | 0 => 22100 + hist_intang_additions.getD 0 0 + hist_da.getD 0 0 * A.daIntang.getD 0 0
  | i + 1 => histIntangClose A i + hist_intang_additions.getD (i + 1) 0
      + hist_da.getD (i + 1) 0 * A.daIntang.getD (i + 1) 0

/-- Notes intangible opening balance at historical period `i`. -/
def histIntangOpen (A : Assumptions) : Nat → ℚ
  | 0 => 22100
  | i + 1 => histIntangClose A i

/-- Historical column `i` (0-4): literal data, plus the generated
formulas that are also written into historical columns (the balance
check row, the Notes roll-forward, maturity residual and totals). -/
def histCols (A : Assumptions) (i : Nat) : Cols :=
  let w1 := hist_current_debt.getD i 0
  let m12 := hist_maturity_1_2yr.getD i 0
  let m25 := hist_maturity_2_5yr.getD i 0
  let td := hist_total_borrow.getD i 0
  let over5 := td - w1 - m12 - m25
  { tollRev := hist_toll_rev.getD i 0, otherRev := hist_other_rev.getD i 0,
    totalRev := hist_total_rev.getD i 0,
    emp := hist_employee.getD i 0, road := hist_road_ops.getD i 0,
    corp := hist_corp_admin.getD i 0, topex := hist_total_opex.getD i 0,
    ebitda := hist_ebitda.getD i 0, da := hist_da.getD i 0,
    ebit := hist_ebit.getD i 0, nfc := hist_net_finance.getD i 0,
    pbt := hist_pbt.getD i 0, taxv := hist_tax.getD i 0,
    npat := hist_npat.getD i 0,
    cash := hist_cash.getD i 0, recv := hist_recv.getD i 0,
    oca := hist_other_ca.getD i 0, tca := hist_total_ca.getD i 0,
    ppe := hist_ppe.getD i 0, intang := hist_intangibles.getD i 0,
    jv := hist_invest_jv.getD i 0, onca := hist_other_nca.getD i 0,
    tnca := hist_total_nca.getD i 0, ta := hist_total_assets.getD i 0,
    pay := hist_payables.getD i 0, cd := hist_current_debt.getD i 0,
    ocl := hist_other_cl.getD i 0, tcl := hist_total_cl.getD i 0,
    ncd := hist_nc_debt.getD i 0, oncl := hist_other_ncl.getD i 0,
    tncl := hist_total_ncl.getD i 0, tb := hist_total_borrow.getD i 0,
    tl := hist_total_liab.getD i 0, sc := hist_share_cap.getD i 0,
    re := hist_retained.getD i 0, rsv := hist_reserves.getD i 0,
    teq := hist_total_eq.getD i 0, tle := hist_total_le.getD i 0,
    bsCheck := hist_total_assets.getD i 0 - hist_total_le.getD i 0,
    cfWc := hist_wc_change.getD i 0, cfOtherOps := hist_other_ops.getD i 0,
    cfNetOps := hist_net_cfo.getD i 0, cfCapex := hist_capex_cf.getD i 0,
    cfOtherInv := hist_other_inv.getD i 0, cfNetInv := hist_net_cfi.getD i 0,
    cfDebt := hist_debt_proc.getD i 0, cfDiv := hist_div_paid.getD i 0,
    cfEquity := hist_equity_iss.getD i 0, cfNetFin := hist_net_cff.getD i 0,
    cfNetChange := hist_net_change.getD i 0, cfFx := hist_fx_other.getD i 0,
    cfOpen := hist_open_cash.getD i 0, cfClose := hist_cash.getD i 0,
    nConstr := hist_construction_rev.getD i 0,
    nIntangOpen := histIntangOpen A i,
    nIntangAdd := hist_intang_additions.getD i 0,
    nIntangAmort := hist_da.getD i 0 * A.daIntang.getD i 0,
    nIntangClose := histIntangClose A i,
    nCurrDebt := hist_current_debt.getD i 0,
    nTotalDebt := hist_total_borrow.getD i 0,
    nMatW1 := w1, nMat12 := m12, nMat25 := m25,
    nMatOver5 := over5,
    nMatTotal := w1 + m12 + m25 + over5 }

/-- The full workbook column for period `p`: literal historical columns
for 0-4, forecast formula columns for 5-9. -/
def colsAt (A : Assumptions) (t : Toggles) : Nat → Cols
  | 0 => histCols A 0
  | p + 1 => if p + 1 ≤ 4 then histCols A (p + 1) else forecastStep A t (p + 1) (colsAt A t p)

/-- Exact values of forecast column 5 (FY26), used to cache the
recursion of `colsAt` at the base data and default toggles. -/
def colsF5 : Cols :=
  {
    tollRev := 84189/20,
    otherRev := 1854/5,
    totalRev := 18321/4,
    emp := -(1117581/3200),
    road := -(36880173/80000),
    corp := -(23469201/40000),
    topex := -(1117581/800),
    ebitda := 2546619/800,
    da := -(5047/5),
    ebit := 1739099/800,
    nfc := -(117641/100),
    pbt := 797971/800,
    taxv := -(2393913/16000),
    npat := 13565507/16000,
    cash := 2303633563/1168000,
    recv := 109926/365,
    oca := 1236/5,
    tca := 2944126363/1168000,
    ppe := 223656/25,
    intang := 604859/25,
    jv := 7742/5,
    onca := 8262/5,
    tnca := 181707/5,
    ta := 45390881563/1168000,
    pay := 3352743/18250,
    cd := 2543/2,
    ocl := 3811/5,
    tcl := 20233884/9125,
    ncd := 48317/2,
    oncl := 14178/5,
    tncl := 269941/10,
    tb := 25430,
    tl := 533110093/18250,
    sc := 154631/10,
    re := -(99810493/16000),
    rsv := 412,
    teq := 154191107/16000,
    tle := 45374996763/1168000,
    bsCheck := 68/5,
    cfWc := -(6961557/18250),
    cfOtherOps := 867/5,
    cfNetOps := 1926252763/1168000,
    cfCapex := -1300,
    cfOtherInv := -90,
    cfNetInv := -1390,
    cfDebt := 400,
    cfDiv := -1360,
    cfEquity := 1531/10,
    cfNetFin := -(8069/10),
    cfNetChange := -(639726437/1168000),
    cfFx := 0,
    cfOpen := 2520,
    cfClose := 2303633563/1168000,
    nConstr := 721/2,
    nIntangOpen := 116713/5,
    nIntangAdd := 721/2,
    nIntangAmort := -(15141/25),
    nIntangClose := 1154873/50,
    nCurrDebt := 2543/2,
    nTotalDebt := 25430,
    nMatW1 := 2543/2,
    nMat12 := 2543/2,
    nMat25 := 33059/5,
    nMatOver5 := 81376/5,
    nMatTotal := 25430 }

/-- Exact values of forecast column 6 (FY27), used to cache the
recursion of `colsAt` at the base data and default toggles. -/
def colsF6 : Cols :=
  {
    tollRev := 1767969/400,
    otherRev := 95481/250,
    totalRev := 9603693/2000,
    emp := -(28811079/80000),
    road := -(950765607/2000000),
    corp := -(605032659/1000000),
    topex := -(28811079/20000),
    ebitda := 67225851/20000,
    da := -(1271949/1250),
    ebit := 46874667/20000,
    nfc := -(119521/100),
    pbt := 22970467/20000,
    taxv := -(68911401/400000),
    npat := 390497939/400000,
    cash := 1046383223/584000,
    recv := 28811079/91250,
    oca := 31827/125,
    tca := 6897349363/2920000,
    ppe := 30903801/3125,
    intang := 147398903/6250,
    jv := 189679/125,
    onca := 210681/125,
    tnca := 45844901/1250,
    ta := 113991038099/2920000,
    pay := 86433237/456250,
    cd := 1289,
    ocl := 392533/500,
    tcl := 2065451699/912500,
    ncd := 24491,
    oncl := 361539/125,
    tncl := 3422914/125,
    tb := 25780,
    tl := 27052723899/912500,
    sc := 15617731/1000,
    re := -(1333782193/200000),
    rsv := 412,
    teq := 1872164007/200000,
    tle := 113902310979/2920000,
    bsCheck := 15193/500,
    cfWc := -(4033233/456250),
    cfOtherOps := 44217/250,
    cfNetOps := 20200159/9344,
    cfCapex := -1350,
    cfOtherInv := -90,
    cfNetInv := -1440,
    cfDebt := 350,
    cfDiv := -1407,
    cfEquity := 154631/1000,
    cfNetFin := -(902369/1000),
    cfNetChange := -(210867117/1168000),
    cfFx := 0,
    cfOpen := 2303633563/1168000,
    cfClose := 1046383223/584000,
    nConstr := 74263/200,
    nIntangOpen := 1154873/50,
    nIntangAdd := 74263/200,
    nIntangAmort := -(3815847/6250),
    nIntangClose := 571455987/25000,
    nCurrDebt := 1289,
    nTotalDebt := 25780,
    nMatW1 := 1289,
    nMat12 := 1289,
    nMat25 := 33514/5,
    nMatOver5 := 82496/5,
    nMatTotal := 25780 }

/-- Exact values of forecast column 7 (FY28), used to cache the
recursion of `colsAt` at the base data and default toggles. -/
def colsF7 : Cols :=
  {
    tollRev := 369505521/80000,
    otherRev := 9834543/25000,
    totalRev := 2004880293/400000,
    emp := -(118287937287/320000000),
    road := -(3903501930471/8000000000),
    corp := -(2484046683027/4000000000),
    topex := -(118287937287/80000000),
    ebitda := 282688121313/80000000,
    da := -(320914307/312500),
    ebit := 200534058721/80000000,
    nfc := -(30936/25),
    pbt := 101538858721/80000000,
    taxv := -(304616576163/1600000000),
    npat := 1726160598257/1600000000,
    cash := 36929418058917/23360000000,
    recv := 6014640879/18250000,
    oca := 3278181/12500,
    tca := 50754423036837/23360000000,
    ppe := 8498785943/781250,
    intang := 35886982829/1562500,
    jv := 9294271/6250,
    onca := 10744731/6250,
    tnca := 11578861043/312500,
    ta := 916297443723173/23360000000,
    pay := 354863811861/1825000000,
    cd := 1304,
    ocl := 40430899/50000,
    tcl := 4210391625361/1825000000,
    ncd := 24776,
    oncl := 18438489/6250,
    tncl := 173288489/6250,
    tb := 26080,
    tl := 54810630413361/1825000000,
    sc := 1577390831/100000,
    re := -(11271136945743/1600000000),
    rsv := 412,
    teq := 14626316350257/1600000000,
    tle := 915120288004773/23360000000,
    bsCheck := 2519597/50000,
    cfWc := -(16111644039/1825000000),
    cfOtherOps := 2255067/12500,
    cfNetOps := 53198971177317/23360000000,
    cfCapex := -1400,
    cfOtherInv := -90,
    cfNetInv := -1490,
    cfDebt := 300,
    cfDiv := -(7272/5),
    cfEquity := 15617731/100000,
    cfNetFin := -(99822269/100000),
    cfNetChange := -(4925910861083/23360000000),
    cfFx := 0,
    cfOpen := 1046383223/584000,
    cfClose := 36929418058917/23360000000,
    nConstr := 7649089/20000,
    nIntangOpen := 571455987/25000,
    nIntangAdd := 7649089/20000,
    nIntangAmort := -(962742921/1562500),
    nIntangClose := 282806730757/12500000,
    nCurrDebt := 1304,
    nTotalDebt := 26080,
    nMatW1 := 1304,
    nMat12 := 1304,
    nMat25 := 33904/5,
    nMatOver5 := 83456/5,
    nMatTotal := 26080 }

/-- Exact values of forecast column 8 (FY29), used to cache the
recursion of `colsAt` at the base data and default toggles. -/
def colsF8 : Cols :=
  {
    tollRev := 4803571773/1000000,
    otherRev := 1012957929/2500000,
    totalRev := 26043774723/5000000,
    emp := -(755269466967/2000000000),
    road := -(24923892409911/50000000000),
    corp := -(15860658806307/25000000000),
    topex := -(755269466967/500000000),
    ebitda := 1849108005333/500000000,
    da := -(81052027301/78125000),
    ebit := 6651875153033/2500000000,
    nfc := -(31296/25),
    pbt := 3522275153033/2500000000,
    taxv := -(10566825459099/50000000000),
    npat := 59878677601561/50000000000,
    cash := 22052582457519097/14600000000000,
    recv := 78131324169/228125000,
    oca := 337652643/1250000,
    tca := 30996770074575097/14600000000000,
    ppe := 2287785083449/195312500,
    intang := 8728589625347/390625000,
    jv := 455419279/312500,
    onca := 547981281/312500,
    tnca := 2911682098449/78125000,
    ta := 575131920632724217/14600000000000,
    pay := 2265808400901/11406250000,
    cd := 1314,
    ocl := 4164382597/5000000,
    tcl := 107014474801229/45625000000,
    ncd := 24966,
    oncl := 940362939/312500,
    tncl := 8742237939/312500,
    tb := 26280,
    tl := 1383381213895229/45625000000,
    sc := 159316473931/10000000,
    re := -(1469077407811631/200000000000),
    rsv := 412,
    teq := 1799652070808369/200000000000,
    tle := 574056589615484217/14600000000000,
    bsCheck := 368264047/5000000,
    cfWc := -(398024329221/45625000000),
    cfOtherOps := 115008417/625000,
    cfNetOps := 8797701389358993/3650000000000,
    cfCapex := -1250,
    cfOtherInv := -90,
    cfNetInv := -1340,
    cfDebt := 200,
    cfDiv := -(2997/2),
    cfEquity := 1577390831/10000000,
    cfNetFin := -(11407609169/10000000),
    cfNetChange := -(257075957326007/3650000000000),
    cfFx := 0,
    cfOpen := 36929418058917/23360000000,
    cfClose := 22052582457519097/14600000000000,
    nConstr := 787856167/2000000,
    nIntangOpen := 282806730757/12500000,
    nIntangAdd := 787856167/2000000,
    nIntangAmort := -(243156081903/390625000),
    nIntangClose := 139974918589927/6250000000,
    nCurrDebt := 1314,
    nTotalDebt := 26280,
    nMatW1 := 1314,
    nMat12 := 1314,
    nMat25 := 34164/5,
    nMatOver5 := 84096/5,
    nMatTotal := 26280 }

/-- Exact values of forecast column 9 (FY30), used to cache the
recursion of `colsAt` at the base data and default toggles. -/
def colsF9 : Cols :=
  {
    tollRev := 2493053750187/500000000,
    otherRev := 104334666687/250000000,
    totalRev := 2701723083561/500000000,
    emp := -(24315507752049/62500000000),
    road := -(802411755817617/1562500000000),
    corp := -(510625662793029/781250000000),
    topex := -(24315507752049/15625000000),
    ebitda := 240453354436929/62500000000,
    da := -(20381774689143/19531250000),
    ebit := 876158377158357/312500000000,
    nfc := -(31536/25),
    pbt := 481958377158357/312500000000,
    taxv := -(1445875131475071/6250000000000),
    npat := 8193292411692069/6250000000000,
    cash := 2687014760699040833/1825000000000000,
    recv := 8105169250683/22812500000,
    oca := 34778222229/125000000,
    tca := 3843190345297080833/1825000000000000,
    ppe := 610158246173107/48828125000,
    intang := 2121002082269321/97656250000,
    jv := 22315544671/15625000,
    onca := 27947045331/15625000,
    tnca := 731091952425607/19531250000,
    ta := 72156422379945798913/1825000000000000,
    pay := 72946523256147/356445312500,
    cd := 1319,
    ocl := 428931407491/500000000,
    tcl := 54328260455170283/22812500000000,
    ncd := 25061,
    oncl := 47958509889/15625000,
    tncl := 439536634889/15625000,
    tb := 26380,
    tl := 696051747393110283/22812500000000,
    sc := 16090963867031/1000000000,
    re := -(189431506329685599/25000000000000),
    rsv := 412,
    teq := 223142590346089401/25000000000000,
    tle := 71973548886713348913/1825000000000000,
    bsCheck := 50102326913/500000000,
    cfWc := -(19384518398949/2851562500000),
    cfOtherOps := 5865429267/31250000,
    cfNetOps := 1156762347146269677/456250000000000,
    cfCapex := -1200,
    cfOtherInv := -90,
    cfNetInv := -1290,
    cfDebt := 100,
    cfDiv := -(7714/5),
    cfEquity := 159316473931/1000000000,
    cfNetFin := -(1283483526069/1000000000),
    cfNetChange := -(17389511622711573/456250000000000),
    cfFx := 0,
    cfOpen := 22052582457519097/14600000000000,
    cfClose := 2687014760699040833/1825000000000000,
    nConstr := 81149185201/200000000,
    nIntangOpen := 139974918589927/6250000000,
    nIntangAdd := 81149185201/200000000,
    nIntangAmort := -(61145324067429/97656250000),
    nIntangClose := 69298764943571397/3125000000000,
    nCurrDebt := 1319,
    nTotalDebt := 26380,
    nMatW1 := 1319,
    nMat12 := 1319,
    nMat25 := 34294/5,
    nMatOver5 := 84416/5,
    nMatTotal := 26380 }


/-- Sum of the four Notes segment revenues at historical period `i`
(the "Total segment revenue" formula adds the Melbourne, Sydney,
Brisbane and North America revenue cells). -/
def segRevTotal (i : Nat) : ℚ :=
  hist_melb_rev.getD i 0 + hist_syd_rev.getD i 0 + hist_bris_rev.getD i 0 + hist_na_rev.getD i 0

/-- Sum of the four Notes segment EBITDAs at historical period `i`. -/
def segEbitdaTotal (i : Nat) : ℚ :=
  hist_melb_ebitda.getD i 0 + hist_syd_ebitda.getD i 0 + hist_bris_ebitda.getD i 0 +
    hist_na_ebitda.getD i 0

/-! ### Claim C3: the dependency graph of the generated formula cells

Each generated formula row becomes a `Line`; a cell is a `Line` paired
with its workbook column (3-7 historical, 8-12 forecast).  `cellRefs`
lists, for every cell holding a generated formula, the cells its formula
references; cells holding literals reference nothing. -/

/-- One formula-bearing (or referenced) row of the workbook.  `aInput n`
is the literal assumption cell in Assumptions-sheet row `n`; `aToggle n`
is the toggle cell in column B row `n`; `nData n` is a literal Notes
cell in Notes row `n` (segment data); the six `a..` constructors are the
active driver rows; the `is/bs/cf/n` constructors are the Income
Statement, Balance Sheet, Cash Flow and Notes rows. -/
inductive Line where
  | aInput : Nat → Line
  | aToggle : Nat → Line
  | nData : Nat → Line
  | aTollG | aOtherG | aOpexP | aDaP | aCodP | aTaxP
  | isToll | isOther | isTotalRev | isEmp | isRoad | isCorp | isTopex | isEbitda
  | isDa | isEbit | isNfc | isPbt | isTax | isNpat
  | bsCash | bsRecv | bsOca | bsTca | bsPpe | bsIntang | bsJv | bsOnca | bsTnca | bsTa
  | bsPay | bsCd | bsOcl | bsTcl | bsNcd | bsOncl | bsTncl | bsTb | bsTl
  | bsSc | bsRe | bsRsv | bsTeq | bsTle | bsCheckRow
  | cfNpatL | cfDaL | cfWcL | cfOtherOpsL | cfNetOpsL | cfCapexL | cfOtherInvL
  | cfNetInvL | cfDebtL | cfDivL | cfEquityL | cfNetFinL | cfNetChangeL | cfFxL
  | cfOpenL | cfCloseL
  | nToll | nConstr | nOtherRev | nTotalRev | nSegRev | nSegEbitda | nRecon
  | nIntangOpen | nIntangAdd | nIntangAmort | nIntangClose | nIntangCheck
  | nCurrDebt | nNcDebt | nTotalDebt | nMatW1 | nMat12 | nMat25 | nMatOver5 | nMatTotal
  | nInterest | nCapCosts | nEffRate
  | nPbt | nTax30 | nNonDed | nTaxConc | nOtherPerm | nTotalAdj | nTaxExp | nEtr | nEtrAssum
  | nDps | nShares | nDistPaid | nPayout
  | nCapCommit | nOpLease | nContingent

open Line in
/-- The cells referenced by the generated formula in row `l`, column
`c`; `[]` when that cell holds a literal (historical data, toggles,
assumption inputs, forecast FX = 0) or lies outside the written
columns.  Transcribed formula-by-formula from the generator. -/
def cellRefs : Line → Nat → List (Line × Nat)
  | aInput _, _ => []
  | aToggle _, _ => []
  | nData _, _ => []
  | cfFxL, _ => []
  | aTollG, c => if 3 ≤ c ∧ c ≤ 7 then [(aInput 15, c)]
      else if 8 ≤ c ∧ c ≤ 12 then
        [(aToggle 5, 2), (aInput 15, 5), (aInput 15, 6), (aInput 15, 7), (aInput 15, c)]
      else []
  | aOtherG, c => if 3 ≤ c ∧ c ≤ 7 then [(aInput 17, c)]
      else if 8 ≤ c ∧ c ≤ 12 then
        [(aToggle 6, 2), (aInput 17, 5), (aInput 17, 6), (aInput 17, 7), (aInput 17, c)]
      else []
  | aOpexP, c => if 3 ≤ c ∧ c ≤ 7 then [(aInput 21, c)]
      else if 8 ≤ c ∧ c ≤ 12 then
        [(aToggle 7, 2), (aInput 21, 5), (aInput 21, 6), (aInput 21, 7), (aInput 21, c)]
      else []
  | aDaP, c => if 3 ≤ c ∧ c ≤ 7 then [(aInput 28, c)]
      else if 8 ≤ c ∧ c ≤ 12 then
        [(aToggle 8, 2), (aInput 28, 5), (aInput 28, 6), (aInput 28, 7), (aInput 28, c)]
      else []
  | aCodP, c => if 3 ≤ c ∧ c ≤ 7 then [(aInput 34, c)]
      else if 8 ≤ c ∧ c ≤ 12 then
        [(aToggle 9, 2), (aInput 34, 5), (aInput 34, 6), (aInput 34, 7), (aInput 34, c)]
      else []
  | aTaxP, c => if 3 ≤ c ∧ c ≤ 7 then [(aInput 36, c)]
      else if 8 ≤ c ∧ c ≤ 12 then
        [(aToggle 10, 2), (aInput 36, 5), (aInput 36, 6), (aInput 36, 7), (aInput 36, c)]
      else []
  | isToll, c => if 8 ≤ c ∧ c ≤ 12 then [(isToll, c-1), (aTollG, c)] else []
  | isOther, c => if 8 ≤ c ∧ c ≤ 12 then [(isOther, c-1), (aOtherG, c)] else []
  | isTotalRev, c => if 8 ≤ c ∧ c ≤ 12 then [(isToll, c), (isOther, c)] else []
  | isEmp, c => if 8 ≤ c ∧ c ≤ 12 then [(isTotalRev, c), (aOpexP, c), (aInput 24, c)] else []
  | isRoad, c => if 8 ≤ c ∧ c ≤ 12 then [(isTotalRev, c), (aOpexP, c), (aInput 25, c)] else []
  | isCorp, c => if 8 ≤ c ∧ c ≤ 12 then
      [(isTotalRev, c), (aOpexP, c), (isEmp, c), (isRoad, c)] else []
  | isTopex, c => if 8 ≤ c ∧ c ≤ 12 then [(isEmp, c), (isRoad, c), (isCorp, c)] else []
  | isEbitda, c => if 8 ≤ c ∧ c ≤ 12 then [(isTotalRev, c), (isTopex, c)] else []
  | isDa, c => if 8 ≤ c ∧ c ≤ 12 then [(bsTnca, c-1), (aDaP, c)] else []
  | isEbit, c => if 8 ≤ c ∧ c ≤ 12 then [(isEbitda, c), (isDa, c)] else []
  | isNfc, c => if 8 ≤ c ∧ c ≤ 12 then [(bsTb, c-1), (aCodP, c)] else []
  | isPbt, c => if 8 ≤ c ∧ c ≤ 12 then [(isEbit, c), (isNfc, c)] else []
  | isTax, c => if 8 ≤ c ∧ c ≤ 12 then [(isPbt, c), (aTaxP, c)] else []
  | isNpat, c => if 8 ≤ c ∧ c ≤ 12 then [(isPbt, c), (isTax, c)] else []
  | bsCash, c => if 8 ≤ c ∧ c ≤ 12 then [(cfCloseL, c)] else []
  | bsRecv, c => if 8 ≤ c ∧ c ≤ 12 then [(isTotalRev, c), (aInput 44, c)] else []
  | bsOca, c => if 8 ≤ c ∧ c ≤ 12 then [(bsOca, c-1), (aInput 46, c)] else []
  | bsTca, c => if 8 ≤ c ∧ c ≤ 12 then [(bsCash, c), (bsRecv, c), (bsOca, c)] else []
  | bsPpe, c => if 8 ≤ c ∧ c ≤ 12 then
      [(bsPpe, c-1), (aInput 43, c), (isDa, c), (aInput 30, c)] else []
  | bsIntang, c => if 8 ≤ c ∧ c ≤ 12 then [(bsIntang, c-1), (isDa, c), (aInput 31, c)] else []
  | bsJv, c => if 8 ≤ c ∧ c ≤ 12 then [(bsJv, c-1), (aInput 47, c)] else []
  | bsOnca, c => if 8 ≤ c ∧ c ≤ 12 then [(bsOnca, c-1), (aInput 48, c)] else []
  | bsTnca, c => if 8 ≤ c ∧ c ≤ 12 then
      [(bsPpe, c), (bsIntang, c), (bsJv, c), (bsOnca, c)] else []
  | bsTa, c => if 8 ≤ c ∧ c ≤ 12 then [(bsTca, c), (bsTnca, c)] else []
  | bsPay, c => if 8 ≤ c ∧ c ≤ 12 then [(isTopex, c), (aInput 45, c)] else []
  | bsCd, c => if 8 ≤ c ∧ c ≤ 12 then [(bsTb, c-1), (aInput 55, c), (aInput 39, c)] else []
  | bsOcl, c => if 8 ≤ c ∧ c ≤ 12 then [(bsOcl, c-1), (aInput 49, c)] else []
  | bsTcl, c => if 8 ≤ c ∧ c ≤ 12 then [(bsPay, c), (bsCd, c), (bsOcl, c)] else []
  | bsNcd, c => if 8 ≤ c ∧ c ≤ 12 then [(bsTb, c-1), (aInput 55, c), (bsCd, c)] else []
  | bsOncl, c => if 8 ≤ c ∧ c ≤ 12 then [(bsOncl, c-1), (aInput 50, c)] else []
  | bsTncl, c => if 8 ≤ c ∧ c ≤ 12 then [(bsNcd, c), (bsOncl, c)] else []
  | bsTb, c => if 8 ≤ c ∧ c ≤ 12 then [(bsCd, c), (bsNcd, c)] else []
  | bsTl, c => if 8 ≤ c ∧ c ≤ 12 then [(bsTcl, c), (bsTncl, c)] else []
  | bsSc, c => if 8 ≤ c ∧ c ≤ 12 then [(bsSc, c-1), (aInput 40, c)] else []
  | bsRe, c => if 8 ≤ c ∧ c ≤ 12 then
      [(bsRe, c-1), (isNpat, c), (aInput 53, c), (aInput 54, c)] else []
  | bsRsv, c => if 8 ≤ c ∧ c ≤ 12 then [(bsRsv, c-1)] else []
  | bsTeq, c => if 8 ≤ c ∧ c ≤ 12 then [(bsSc, c), (bsRe, c), (bsRsv, c)] else []
  | bsTle, c => if 8 ≤ c ∧ c ≤ 12 then [(bsTl, c), (bsTeq, c)] else []
  | bsCheckRow, c => if 3 ≤ c ∧ c ≤ 12 then [(bsTa, c), (bsTle, c)] else []
  | cfNpatL, c => if 8 ≤ c ∧ c ≤ 12 then [(isNpat, c)] else []
  | cfDaL, c => if 8 ≤ c ∧ c ≤ 12 then [(isDa, c)] else []
  | cfWcL, c => if 8 ≤ c ∧ c ≤ 12 then
      [(bsRecv, c), (bsRecv, c-1), (bsPay, c), (bsPay, c-1)] else []
  | cfOtherOpsL, c => if 8 ≤ c ∧ c ≤ 12 then [(cfOtherOpsL, c-1), (aInput 56, c)] else []
  | cfNetOpsL, c => if 8 ≤ c ∧ c ≤ 12 then
      [(cfNpatL, c), (cfDaL, c), (cfWcL, c), (cfOtherOpsL, c)] else []
  | cfCapexL, c => if 8 ≤ c ∧ c ≤ 12 then [(aInput 43, c)] else []
  | cfOtherInvL, c => if 8 ≤ c ∧ c ≤ 12 then [(cfOtherInvL, c-1)] else []
  | cfNetInvL, c => if 8 ≤ c ∧ c ≤ 12 then [(cfCapexL, c), (cfOtherInvL, c)] else []
  | cfDebtL, c => if 8 ≤ c ∧ c ≤ 12 then [(aInput 55, c)] else []
  | cfDivL, c => if 8 ≤ c ∧ c ≤ 12 then [(aInput 53, c), (aInput 54, c)] else []
  | cfEquityL, c => if 8 ≤ c ∧ c ≤ 12 then [(bsSc, c-1), (aInput 57, c)] else []
  | cfNetFinL, c => if 8 ≤ c ∧ c ≤ 12 then [(cfDebtL, c), (cfDivL, c), (cfEquityL, c)] else []
  | cfNetChangeL, c => if 8 ≤ c ∧ c ≤ 12 then
      [(cfNetOpsL, c), (cfNetInvL, c), (cfNetFinL, c)] else []
  | cfOpenL, c => if 8 ≤ c ∧ c ≤ 12 then [(bsCash, c-1)] else []
  | cfCloseL, c => if 8 ≤ c ∧ c ≤ 12 then
      [(cfOpenL, c), (cfNetChangeL, c), (cfFxL, c)] else []
  | nToll, c => if 3 ≤ c ∧ c ≤ 12 then [(isToll, c)] else []
  | nConstr, c => if 8 ≤ c ∧ c ≤ 12 then [(nConstr, c-1), (aInput 60, c)] else []
  | nOtherRev, c => if 3 ≤ c ∧ c ≤ 12 then [(isOther, c)] else []
  | nTotalRev, c => if 3 ≤ c ∧ c ≤ 12 then [(isTotalRev, c)] else []
  | nSegRev, c => if 3 ≤ c ∧ c ≤ 7 then
      [(nData 13, c), (nData 16, c), (nData 19, c), (nData 22, c)] else []
  | nSegEbitda, c => if 3 ≤ c ∧ c ≤ 7 then
      [(nData 14, c), (nData 17, c), (nData 20, c), (nData 23, c)] else []
  | nRecon, c => if 3 ≤ c ∧ c ≤ 7 then [(isEbitda, c)] else []
  | nIntangOpen, c => if 4 ≤ c ∧ c ≤ 12 then [(nIntangClose, c-1)] else []
  | nIntangAdd, c => if 8 ≤ c ∧ c ≤ 12 then [(nConstr, c)] else []
  | nIntangAmort, c => if 3 ≤ c ∧ c ≤ 12 then [(isDa, c), (aInput 31, c)] else []
  | nIntangClose, c => if 3 ≤ c ∧ c ≤ 12 then
      [(nIntangOpen, c), (nIntangAdd, c), (nIntangAmort, c)] else []
  | nIntangCheck, c => if 3 ≤ c ∧ c ≤ 12 then [(bsIntang, c)] else []
  | nCurrDebt, c => if 3 ≤ c ∧ c ≤ 12 then [(bsCd, c)] else []
  | nNcDebt, c => if 3 ≤ c ∧ c ≤ 12 then [(bsNcd, c)] else []
  | nTotalDebt, c => if 3 ≤ c ∧ c ≤ 12 then [(bsTb, c)] else []
  | nMatW1, c => if 3 ≤ c ∧ c ≤ 12 then [(nCurrDebt, c)] else []
  | nMat12, c => if 8 ≤ c ∧ c ≤ 12 then [(nTotalDebt, c), (aInput 61, c)] else []
  | nMat25, c => if 8 ≤ c ∧ c ≤ 12 then [(nTotalDebt, c), (aInput 62, c)] else []
  | nMatOver5, c => if 3 ≤ c ∧ c ≤ 12 then
      [(nTotalDebt, c), (nMatW1, c), (nMat12, c), (nMat25, c)] else []
  | nMatTotal, c => if 3 ≤ c ∧ c ≤ 12 then
      [(nMatW1, c), (nMat12, c), (nMat25, c), (nMatOver5, c)] else []
  | nInterest, c => if 3 ≤ c ∧ c ≤ 12 then [(isNfc, c)] else []
  | nCapCosts, c => if 8 ≤ c ∧ c ≤ 12 then
      [(aInput 43, c), (aCodP, c), (aInput 63, c)] else []
  | nEffRate, c => if 3 ≤ c ∧ c ≤ 12 then [(aCodP, c)] else []
  | nPbt, c => if 3 ≤ c ∧ c ≤ 12 then [(isPbt, c)] else []
  | nTax30, c => if 3 ≤ c ∧ c ≤ 12 then [(nPbt, c), (aInput 38, c)] else []
  | nNonDed, c => if 8 ≤ c ∧ c ≤ 12 then [(aInput 64, c)] else []
  | nTaxConc, c => if 8 ≤ c ∧ c ≤ 12 then [(aInput 65, c)] else []
  | nOtherPerm, c => if 8 ≤ c ∧ c ≤ 12 then [(aInput 66, c)] else []
  | nTotalAdj, c => if 3 ≤ c ∧ c ≤ 12 then
      [(nNonDed, c), (nTaxConc, c), (nOtherPerm, c)] else []
  | nTaxExp, c => if 3 ≤ c ∧ c ≤ 12 then [(isTax, c)] else []
  | nEtr, c => if 3 ≤ c ∧ c ≤ 12 then [(nTaxExp, c), (nPbt, c)] else []
  | nEtrAssum, c => if 3 ≤ c ∧ c ≤ 12 then [(aTaxP, c)] else []
  | nDps, c => if 3 ≤ c ∧ c ≤ 12 then [(aInput 53, c)] else []
  | nShares, c => if 3 ≤ c ∧ c ≤ 12 then [(aInput 54, c)] else []
  | nDistPaid, c => if 3 ≤ c ∧ c ≤ 12 then [(cfDivL, c)] else []
  | nPayout, c => if 3 ≤ c ∧ c ≤ 12 then [(nDistPaid, c), (isNpat, c)] else []
  | nCapCommit, c => if 8 ≤ c ∧ c ≤ 12 then [(aInput 43, c), (aInput 67, c)] else []
  | nOpLease, c => if 8 ≤ c ∧ c ≤ 12 then [(nOpLease, c-1), (aInput 68, c)] else []
  | nContingent, c => if 8 ≤ c ∧ c ≤ 12 then [(aInput 69, c)] else []

open Line in
/-- A per-column evaluation stage for each row, consistent with the
single-pass order Assumptions, Income Statement, non-cash Balance Sheet,
Cash Flow, Balance Sheet cash/totals/check, Notes. -/
def cellStage : Line → Nat
  | aInput _ => 0
  | aToggle _ => 0
  | nData _ => 0
  | cfFxL => 0
  | aTollG => 1 | aOtherG => 1 | aOpexP => 1 | aDaP => 1 | aCodP => 1 | aTaxP => 1
  | isToll => 2 | isOther => 2 | isDa => 2 | isNfc => 2
  | isTotalRev => 3
  | isEmp => 4 | isRoad => 4
  | isCorp => 5
  | isTopex => 6
  | isEbitda => 7
  | isEbit => 8
  | isPbt => 9
  | isTax => 10
  | isNpat => 11
  | bsRecv => 12 | bsOca => 12 | bsPpe => 12 | bsIntang => 12 | bsJv => 12 | bsOnca => 12
  | bsPay => 12 | bsCd => 12 | bsOcl => 12 | bsOncl => 12 | bsSc => 12 | bsRe => 12
  | bsRsv => 12
  | bsNcd => 13 | bsTeq => 13
  | bsTnca => 14 | bsTcl => 14 | bsTncl => 14 | bsTb => 14
  | bsTl => 15
  | bsTle => 16
  | cfNpatL => 16 | cfDaL => 16 | cfWcL => 16 | cfOtherOpsL => 16 | cfCapexL => 16
  | cfOtherInvL => 16 | cfDebtL => 16 | cfDivL => 16 | cfEquityL => 16 | cfOpenL => 16
  | cfNetOpsL => 17 | cfNetInvL => 17 | cfNetFinL => 17
  | cfNetChangeL => 18
  | cfCloseL => 19
  | bsCash => 20
  | bsTca => 21
  | bsTa => 22
  | bsCheckRow => 23
  | nToll => 24 | nConstr => 24 | nOtherRev => 24 | nTotalRev => 24 | nSegRev => 24
  | nSegEbitda => 24 | nRecon => 24 | nIntangOpen => 24 | nIntangAmort => 24
  | nIntangCheck => 24 | nCurrDebt => 24 | nNcDebt => 24 | nTotalDebt => 24
  | nInterest => 24 | nCapCosts => 24 | nEffRate => 24 | nPbt => 24 | nNonDed => 24
  | nTaxConc => 24 | nOtherPerm => 24 | nTaxExp => 24 | nEtrAssum => 24 | nDps => 24
  | nShares => 24 | nDistPaid => 24 | nCapCommit => 24 | nOpLease => 24 | nContingent => 24
  | nIntangAdd => 25 | nMatW1 => 25 | nMat12 => 25 | nMat25 => 25 | nTax30 => 25
  | nTotalAdj => 25 | nEtr => 25 | nPayout => 25
  | nIntangClose => 26 | nMatOver5 => 26
  | nMatTotal => 27

/-- Rank of a cell: column-major order refined by the per-column
evaluation stage. -/
def cellRank (l : Line) (c : Nat) : Nat := 30 * c + cellStage l

/-- One step of the dependency graph: cell `a` references cell `b`. -/
def CellDependsOn (a b : Line × Nat) : Prop := b ∈ cellRefs a.1 a.2

/-- `a` reaches `b` through one or more formula references. -/
def CellReaches : (Line × Nat) → (Line × Nat) → Prop := Relation.TransGen CellDependsOn

/-! ### Claims C9, C10: label registries and row-position cross-checks -/

/-- Row lookup in a label registry built the way the generator builds
its row maps: labels are walked in declaration order starting at row
`start` and each label is assigned its row by dictionary insertion, so a
label declared more than once is silently mapped to the row of its LAST
declaration. -/
def rowMapOf (labels : List String) (start : Nat) (lbl : String) : Option Nat :=
  labels.enum.foldl (fun acc iv => if iv.2 = lbl then some (start + iv.1) else acc) none

/-- The `_bs_labels` list: Balance Sheet row positions pre-computed
before the Balance Sheet is assembled, for cross-sheet wiring. -/
def bsLabelsPre : List String :=
  ["ASSETS", "Current Assets", "Cash & cash equivalents",
   "Trade & other receivables", "Other current assets", "Total Current Assets",
   "", "Non-Current Assets", "Property, plant & equipment",
   "Intangible assets (concessions)", "Investments in joint ventures",
   "Other non-current assets", "Total Non-Current Assets", "",
   "Total Assets", "", "LIABILITIES", "Current Liabilities",
   "Trade & other payables", "Current borrowings", "Other current liabilities",
   "Total Current Liabilities", "", "Non-Current Liabilities",
   "Non-current borrowings", "Other non-current liabilities",
   "Total Non-Current Liabilities",
   "Total Borrowings (current + non-current)", "", "Total Liabilities",
   "", "EQUITY", "Share capital", "Retained earnings / (losses)",
   "Reserves", "Total Equity", "", "Total Liabilities & Equity",
   "", "Balance Sheet Check (Assets - L&E)"]

/-- The labels of `bs_items` in declaration order: the rows actually
assigned while the Balance Sheet is assembled (`BS_ROW`). -/
def bsItemLabels : List String :=
  ["ASSETS", "Current Assets", "Cash & cash equivalents",
   "Trade & other receivables", "Other current assets", "Total Current Assets",
   "", "Non-Current Assets", "Property, plant & equipment",
   "Intangible assets (concessions)", "Investments in joint ventures",
   "Other non-current assets", "Total Non-Current Assets", "",
   "Total Assets", "", "LIABILITIES", "Current Liabilities",
   "Trade & other payables", "Current borrowings", "Other current liabilities",
   "Total Current Liabilities", "", "Non-Current Liabilities",
   "Non-current borrowings", "Other non-current liabilities",
   "Total Non-Current Liabilities",
   "Total Borrowings (current + non-current)", "", "Total Liabilities",
   "", "EQUITY", "Share capital", "Retained earnings / (losses)",
   "Reserves", "Total Equity", "", "Total Liabilities & Equity",
   "", "Balance Sheet Check (Assets - L&E)"]

/-- The `_cf_labels` list: Cash Flow row positions pre-computed before
the Cash Flow Statement is assembled. -/
def cfLabelsPre : List String :=
  ["OPERATING ACTIVITIES", "Net profit / (loss) after tax", "Add back: D&A",
   "Changes in working capital", "Other operating adjustments",
   "Net Cash from Operating Activities", "",
   "INVESTING ACTIVITIES", "Capital expenditure", "Other investing activities",
   "Net Cash from Investing Activities", "",
   "FINANCING ACTIVITIES", "Proceeds from / (repayment of) borrowings",
   "Dividends / distributions paid", "Equity issuance (DRP & placements)",
   "Net Cash from Financing Activities", "",
   "Net increase / (decrease) in cash", "FX & other adjustments",
   "Opening cash balance", "Closing Cash Balance"]

/-- The labels of `cf_items` in declaration order: the rows actually
assigned while the Cash Flow Statement is assembled (`CF_ROW`). -/
def cfItemLabels : List String :=
  ["OPERATING ACTIVITIES", "Net profit / (loss) after tax", "Add back: D&A",
   "Changes in working capital", "Other operating adjustments",
   "Net Cash from Operating Activities", "",
   "INVESTING ACTIVITIES", "Capital expenditure", "Other investing activities",
   "Net Cash from Investing Activities", "",
   "FINANCING ACTIVITIES", "Proceeds from / (repayment of) borrowings",
   "Dividends / distributions paid", "Equity issuance (DRP & placements)",
   "Net Cash from Financing Activities", "",
   "Net increase / (decrease) in cash", "FX & other adjustments",
   "Opening cash balance", "Closing Cash Balance"]

/-- The labels of `notes_items` in declaration order (the Notes sheet
registry `NOTES_ROW` is built from these starting at row 5). -/
def notesLabels : List String :=
  ["REVENUE BREAKDOWN", "Toll revenue", "Construction revenue", "Other revenue",
   "Total Revenue", "",
   "SEGMENT REPORTING", "Melbourne (CityLink)", "  Revenue", "  EBITDA",
   "Sydney", "  Revenue", "  EBITDA",
   "Brisbane", "  Revenue", "  EBITDA",
   "North America", "  Revenue", "  EBITDA",
   "Total segment revenue", "Total segment EBITDA", "Reconciliation to IS EBITDA", "",
   "INTANGIBLE ASSETS (CONCESSION RIGHTS)", "Opening balance",
   "Additions (capitalised construction)", "Amortisation charge", "Closing balance",
   "Cross-check to BS", "",
   "BORROWINGS", "Current borrowings", "Non-current borrowings", "Total borrowings", "",
   "Maturity Profile", "  Within 1 year", "  1-2 years", "  2-5 years",
   "  Over 5 years", "  Total (maturity check)", "",
   "Borrowing Costs", "  Interest expense", "  Capitalised borrowing costs",
   "  Effective interest rate", "",
   "INCOME TAX", "Profit before tax", "Tax at statutory rate (30%)",
   "Tax effect adjustments:", "  Non-deductible amortisation",
   "  Tax concessions & offsets", "  Other permanent differences",
   "Total tax adjustments", "Income tax expense", "Effective tax rate",
   "ETR per Assumptions", "",
   "DIVIDENDS / DISTRIBUTIONS", "DPS (cents per security)", "Securities on issue (m)",
   "Total distributions paid", "Payout ratio (% of NPAT)", "Franking credits", "",
   "COMMITMENTS & CONTINGENCIES", "Capital commitments", "Operating lease commitments",
   "Contingent liabilities"]

/-- The toggle token written into the toggle cells differs from the
trailing-average token tested by the IF formulas. -/
theorem fcTok_ne : (("Forecast" : String) = "3yr Avg") = False := by
  simp only [eq_iff_iff, iff_false]
  decide

/-- Historical columns of `colsAt` reduce to `histCols` (period 0). -/
theorem colsAt0_eq (A : Assumptions) (t : Toggles) : colsAt A t 0 = histCols A 0 := rfl

/-- Historical columns of `colsAt` reduce to `histCols` (period 1). -/
theorem colsAt1_eq (A : Assumptions) (t : Toggles) : colsAt A t 1 = histCols A 1 := rfl

/-- Historical columns of `colsAt` reduce to `histCols` (period 2). -/
theorem colsAt2_eq (A : Assumptions) (t : Toggles) : colsAt A t 2 = histCols A 2 := rfl

/-- Historical columns of `colsAt` reduce to `histCols` (period 3). -/
theorem colsAt3_eq (A : Assumptions) (t : Toggles) : colsAt A t 3 = histCols A 3 := rfl

/-- Historical columns of `colsAt` reduce to `histCols` (period 4). -/
theorem colsAt4_eq (A : Assumptions) (t : Toggles) : colsAt A t 4 = histCols A 4 := rfl

/-- Exact evaluation of forecast column 5 (FY26) at the workbook's
literal data and toggles. -/
theorem colsAt5_eq : colsAt baseAssumptions defaultToggles 5 = colsF5 := by
  show forecastStep baseAssumptions defaultToggles 5 (histCols baseAssumptions 4) = colsF5
  norm_num [forecastStep, histCols, activeVal, colsF5, baseAssumptions, defaultToggles,
    fcTok_ne, List.getD, Cols.mk.injEq,
    tollGrowthInput, otherGrowthInput, opexPctInput, empShareInput, roadShareInput,
    daPctInput, daPpeInput, daIntangInput, codInput, taxRateInput, statTaxInput,
    currBorrowPctInput, drpRateInput, capexInput, recDaysInput, payDaysInput,
    ocaGrInput, jvGrInput, oncaGrInput, oclGrInput, onclGrInput, dpsInput, sharesInput,
    netDebtInput, otherOpsGrInput, equityIssInput, constrGrInput, mat12Input, mat25Input,
    hist_toll_rev, hist_other_rev, hist_total_rev, hist_employee, hist_road_ops,
    hist_corp_admin, hist_total_opex, hist_ebitda, hist_da, hist_ebit, hist_net_finance,
    hist_pbt, hist_tax, hist_npat, hist_cash, hist_recv, hist_other_ca, hist_total_ca,
    hist_ppe, hist_intangibles, hist_invest_jv, hist_other_nca, hist_total_nca,
    hist_total_assets, hist_payables, hist_current_debt, hist_other_cl, hist_total_cl,
    hist_nc_debt, hist_total_borrow, hist_other_ncl, hist_total_ncl, hist_total_liab,
    hist_share_cap, hist_reserves, hist_retained, hist_total_eq, hist_total_le,
    hist_wc_change, hist_other_ops, hist_cfo_da, hist_net_cfo, hist_capex_cf,
    hist_other_inv, hist_net_cfi, hist_debt_proc, hist_div_paid, hist_equity_iss,
    hist_net_cff, hist_net_change, hist_open_cash, hist_fx_other, hist_construction_rev,
    hist_intang_additions, hist_maturity_1_2yr, hist_maturity_2_5yr,
    histIntangClose, histIntangOpen]


/-- Exact evaluation of forecast column 6 (FY27) at the workbook's
literal data and toggles. -/
theorem colsAt6_eq : colsAt baseAssumptions defaultToggles 6 = colsF6 := by
  rw [show colsAt baseAssumptions defaultToggles 6
        = forecastStep baseAssumptions defaultToggles 6 (colsAt baseAssumptions defaultToggles 5) from rfl,
      colsAt5_eq]
  norm_num [forecastStep, activeVal, colsF5, colsF6, baseAssumptions, defaultToggles,
    fcTok_ne, List.getD, Cols.mk.injEq,
    tollGrowthInput, otherGrowthInput, opexPctInput, empShareInput, roadShareInput,
    daPctInput, daPpeInput, daIntangInput, codInput, taxRateInput, statTaxInput,
    currBorrowPctInput, drpRateInput, capexInput, recDaysInput, payDaysInput,
    ocaGrInput, jvGrInput, oncaGrInput, oclGrInput, onclGrInput, dpsInput, sharesInput,
    netDebtInput, otherOpsGrInput, equityIssInput, constrGrInput, mat12Input, mat25Input,
    hist_toll_rev, hist_other_rev, hist_total_rev, hist_employee, hist_road_ops,
    hist_corp_admin, hist_total_opex, hist_ebitda, hist_da, hist_ebit, hist_net_finance,
    hist_pbt, hist_tax, hist_npat, hist_cash, hist_recv, hist_other_ca, hist_total_ca,
    hist_ppe, hist_intangibles, hist_invest_jv, hist_other_nca, hist_total_nca,
    hist_total_assets, hist_payables, hist_current_debt, hist_other_cl, hist_total_cl,
    hist_nc_debt, hist_total_borrow, hist_other_ncl, hist_total_ncl, hist_total_liab,
    hist_share_cap, hist_reserves, hist_retained, hist_total_eq, hist_total_le,
    hist_wc_change, hist_other_ops, hist_cfo_da, hist_net_cfo, hist_capex_cf,
    hist_other_inv, hist_net_cfi, hist_debt_proc, hist_div_paid, hist_equity_iss,
    hist_net_cff, hist_net_change, hist_open_cash, hist_fx_other, hist_construction_rev,
    hist_intang_additions, hist_maturity_1_2yr, hist_maturity_2_5yr,
    histIntangClose, histIntangOpen]


/-- Exact evaluation of forecast column 7 (FY28) at the workbook's
literal data and toggles. -/
theorem colsAt7_eq : colsAt baseAssumptions defaultToggles 7 = colsF7 := by
  rw [show colsAt baseAssumptions defaultToggles 7
        = forecastStep baseAssumptions defaultToggles 7 (colsAt baseAssumptions defaultToggles 6) from rfl,
      colsAt6_eq]
  norm_num [forecastStep, activeVal, colsF6, colsF7, baseAssumptions, defaultToggles,
    fcTok_ne, List.getD, Cols.mk.injEq,
    tollGrowthInput, otherGrowthInput, opexPctInput, empShareInput, roadShareInput,
    daPctInput, daPpeInput, daIntangInput, codInput, taxRateInput, statTaxInput,
    currBorrowPctInput, drpRateInput, capexInput, recDaysInput, payDaysInput,
    ocaGrInput, jvGrInput, oncaGrInput, oclGrInput, onclGrInput, dpsInput, sharesInput,
    netDebtInput, otherOpsGrInput, equityIssInput, constrGrInput, mat12Input, mat25Input,
    hist_toll_rev, hist_other_rev, hist_total_rev, hist_employee, hist_road_ops,
    hist_corp_admin, hist_total_opex, hist_ebitda, hist_da, hist_ebit, hist_net_finance,
    hist_pbt, hist_tax, hist_npat, hist_cash, hist_recv, hist_other_ca, hist_total_ca,
    hist_ppe, hist_intangibles, hist_invest_jv, hist_other_nca, hist_total_nca,
    hist_total_assets, hist_payables, hist_current_debt, hist_other_cl, hist_total_cl,
    hist_nc_debt, hist_total_borrow, hist_other_ncl, hist_total_ncl, hist_total_liab,
    hist_share_cap, hist_reserves, hist_retained, hist_total_eq, hist_total_le,
    hist_wc_change, hist_other_ops, hist_cfo_da, hist_net_cfo, hist_capex_cf,
    hist_other_inv, hist_net_cfi, hist_debt_proc, hist_div_paid, hist_equity_iss,
    hist_net_cff, hist_net_change, hist_open_cash, hist_fx_other, hist_construction_rev,
    hist_intang_additions, hist_maturity_1_2yr, hist_maturity_2_5yr,
    histIntangClose, histIntangOpen]


/-- Exact evaluation of forecast column 8 (FY29) at the workbook's
literal data and toggles. -/
theorem colsAt8_eq : colsAt baseAssumptions defaultToggles 8 = colsF8 := by
  rw [show colsAt baseAssumptions defaultToggles 8
        = forecastStep baseAssumptions defaultToggles 8 (colsAt baseAssumptions defaultToggles 7) from rfl,
      colsAt7_eq]
  norm_num [forecastStep, activeVal, colsF7, colsF8, baseAssumptions, defaultToggles,
    fcTok_ne, List.getD, Cols.mk.injEq,
    tollGrowthInput, otherGrowthInput, opexPctInput, empShareInput, roadShareInput,
    daPctInput, daPpeInput, daIntangInput, codInput, taxRateInput, statTaxInput,
    currBorrowPctInput, drpRateInput, capexInput, recDaysInput, payDaysInput,
    ocaGrInput, jvGrInput, oncaGrInput, oclGrInput, onclGrInput, dpsInput, sharesInput,
    netDebtInput, otherOpsGrInput, equityIssInput, constrGrInput, mat12Input, mat25Input,
    hist_toll_rev, hist_other_rev, hist_total_rev, hist_employee, hist_road_ops,
    hist_corp_admin, hist_total_opex, hist_ebitda, hist_da, hist_ebit, hist_net_finance,
    hist_pbt, hist_tax, hist_npat, hist_cash, hist_recv, hist_other_ca, hist_total_ca,
    hist_ppe, hist_intangibles, hist_invest_jv, hist_other_nca, hist_total_nca,
    hist_total_assets, hist_payables, hist_current_debt, hist_other_cl, hist_total_cl,
    hist_nc_debt, hist_total_borrow, hist_other_ncl, hist_total_ncl, hist_total_liab,
    hist_share_cap, hist_reserves, hist_retained, hist_total_eq, hist_total_le,
    hist_wc_change, hist_other_ops, hist_cfo_da, hist_net_cfo, hist_capex_cf,
    hist_other_inv, hist_net_cfi, hist_debt_proc, hist_div_paid, hist_equity_iss,
    hist_net_cff, hist_net_change, hist_open_cash, hist_fx_other, hist_construction_rev,
    hist_intang_additions, hist_maturity_1_2yr, hist_maturity_2_5yr,
    histIntangClose, histIntangOpen]


/-- Exact evaluation of forecast column 9 (FY30) at the workbook's
literal data and toggles. -/
theorem colsAt9_eq : colsAt baseAssumptions defaultToggles 9 = colsF9 := by
  rw [show colsAt baseAssumptions defaultToggles 9
        = forecastStep baseAssumptions defaultToggles 9 (colsAt baseAssumptions defaultToggles 8) from rfl,
      colsAt8_eq]
  norm_num [forecastStep, activeVal, colsF8, colsF9, baseAssumptions, defaultToggles,
    fcTok_ne, List.getD, Cols.mk.injEq,
    tollGrowthInput, otherGrowthInput, opexPctInput, empShareInput, roadShareInput,
    daPctInput, daPpeInput, daIntangInput, codInput, taxRateInput, statTaxInput,
    currBorrowPctInput, drpRateInput, capexInput, recDaysInput, payDaysInput,
    ocaGrInput, jvGrInput, oncaGrInput, oclGrInput, onclGrInput, dpsInput, sharesInput,
    netDebtInput, otherOpsGrInput, equityIssInput, constrGrInput, mat12Input, mat25Input,
    hist_toll_rev, hist_other_rev, hist_total_rev, hist_employee, hist_road_ops,
    hist_corp_admin, hist_total_opex, hist_ebitda, hist_da, hist_ebit, hist_net_finance,
    hist_pbt, hist_tax, hist_npat, hist_cash, hist_recv, hist_other_ca, hist_total_ca,
    hist_ppe, hist_intangibles, hist_invest_jv, hist_other_nca, hist_total_nca,
    hist_total_assets, hist_payables, hist_current_debt, hist_other_cl, hist_total_cl,
    hist_nc_debt, hist_total_borrow, hist_other_ncl, hist_total_ncl, hist_total_liab,
    hist_share_cap, hist_reserves, hist_retained, hist_total_eq, hist_total_le,
    hist_wc_change, hist_other_ops, hist_cfo_da, hist_net_cfo, hist_capex_cf,
    hist_other_inv, hist_net_cfi, hist_debt_proc, hist_div_paid, hist_equity_iss,
    hist_net_cff, hist_net_change, hist_open_cash, hist_fx_other, hist_construction_rev,
    hist_intang_additions, hist_maturity_1_2yr, hist_maturity_2_5yr,
    histIntangClose, histIntangOpen]

/-! ### Claims C1, C2, C5, C6: check rows and reconciliations -/

/-- Claim C1 (counterexample): the Balance Sheet Check row does NOT
evaluate to 0 within 1e-6 in every period.  At the first forecast period
FY26 (period index 5), from the workbook's literal historical data,
assumption inputs and toggle tokens, the check row evaluates exactly to
13.6 (A$m), far outside the 1e-6 tolerance. -/
theorem bs_check_fy26_outside_tolerance :
    (colsAt baseAssumptions defaultToggles 5).bsCheck = 68/5 ∧
    ¬ |(colsAt baseAssumptions defaultToggles 5).bsCheck| < 1/1000000 := by
  rw [colsAt5_eq]
  norm_num [colsF5, abs_lt]

/-- Claim C1 (amended): the Balance Sheet Check row (Total Assets minus
Total Liabilities & Equity) evaluates to exactly 0 in every historical
period, because historical retained earnings is the balancing plug, but
it is nonzero in every forecast period: FY26 evaluates to exactly 13.6
(A$m) and the residual grows in later forecast years. -/
theorem bs_check_hist_zero_forecast_nonzero :
    (∀ p : Fin 5, (colsAt baseAssumptions defaultToggles p.val).bsCheck = 0) ∧
    (colsAt baseAssumptions defaultToggles 5).bsCheck = 68/5 ∧
    (∀ p : Fin 5, (colsAt baseAssumptions defaultToggles (5 + p.val)).bsCheck ≠ 0) := by
  refine ⟨?_, ?_, ?_⟩
  · intro p
    fin_cases p
    · rw [colsAt0_eq]
      norm_num [histCols, hist_total_assets, hist_total_le, hist_total_ca, hist_total_nca,
        hist_cash, hist_recv, hist_other_ca, hist_ppe, hist_intangibles, hist_invest_jv,
        hist_other_nca, hist_total_liab, hist_total_cl, hist_total_ncl, hist_payables,
        hist_current_debt, hist_other_cl, hist_nc_debt, hist_other_ncl, hist_total_eq,
        hist_share_cap, hist_retained, hist_reserves]
    · rw [colsAt1_eq]
      norm_num [histCols, hist_total_assets, hist_total_le, hist_total_ca, hist_total_nca,
        hist_cash, hist_recv, hist_other_ca, hist_ppe, hist_intangibles, hist_invest_jv,
        hist_other_nca, hist_total_liab, hist_total_cl, hist_total_ncl, hist_payables,
        hist_current_debt, hist_other_cl, hist_nc_debt, hist_other_ncl, hist_total_eq,
        hist_share_cap, hist_retained, hist_reserves]
    · rw [colsAt2_eq]
      norm_num [histCols, hist_total_assets, hist_total_le, hist_total_ca, hist_total_nca,
        hist_cash, hist_recv, hist_other_ca, hist_ppe, hist_intangibles, hist_invest_jv,
        hist_other_nca, hist_total_liab, hist_total_cl, hist_total_ncl, hist_payables,
        hist_current_debt, hist_other_cl, hist_nc_debt, hist_other_ncl, hist_total_eq,
        hist_share_cap, hist_retained, hist_reserves]
    · rw [colsAt3_eq]
      norm_num [histCols, hist_total_assets, hist_total_le, hist_total_ca, hist_total_nca,
        hist_cash, hist_recv, hist_other_ca, hist_ppe, hist_intangibles, hist_invest_jv,
        hist_other_nca, hist_total_liab, hist_total_cl, hist_total_ncl, hist_payables,
        hist_current_debt, hist_other_cl, hist_nc_debt, hist_other_ncl, hist_total_eq,
        hist_share_cap, hist_retained, hist_reserves]
    · rw [colsAt4_eq]
      norm_num [histCols, hist_total_assets, hist_total_le, hist_total_ca, hist_total_nca,
        hist_cash, hist_recv, hist_other_ca, hist_ppe, hist_intangibles, hist_invest_jv,
        hist_other_nca, hist_total_liab, hist_total_cl, hist_total_ncl, hist_payables,
        hist_current_debt, hist_other_cl, hist_nc_debt, hist_other_ncl, hist_total_eq,
        hist_share_cap, hist_retained, hist_reserves]
  · rw [colsAt5_eq]
    norm_num [colsF5]
  · intro p
    fin_cases p
    · show (colsAt baseAssumptions defaultToggles 5).bsCheck ≠ 0
      rw [colsAt5_eq]; norm_num [colsF5]
    · show (colsAt baseAssumptions defaultToggles 6).bsCheck ≠ 0
      rw [colsAt6_eq]; norm_num [colsF6]
    · show (colsAt baseAssumptions defaultToggles 7).bsCheck ≠ 0
      rw [colsAt7_eq]; norm_num [colsF7]
    · show (colsAt baseAssumptions defaultToggles 8).bsCheck ≠ 0
      rw [colsAt8_eq]; norm_num [colsF8]
    · show (colsAt baseAssumptions defaultToggles 9).bsCheck ≠ 0
      rw [colsAt9_eq]; norm_num [colsF9]

/-- Claim C2 (counterexample): the Notes intangible Closing balance does
not equal the Balance Sheet "Intangible assets (concessions)" line.  At
FY21 (period 0) the Notes closing evaluates to 22116.4 while the
Balance Sheet line is the literal 22450. -/
theorem intang_close_ne_bs_fy21 :
    (colsAt baseAssumptions defaultToggles 0).nIntangClose = 110582/5 ∧
    (colsAt baseAssumptions defaultToggles 0).intang = 22450 ∧
    (colsAt baseAssumptions defaultToggles 0).nIntangClose ≠
      (colsAt baseAssumptions defaultToggles 0).intang := by
  rw [colsAt0_eq]
  norm_num [histCols, histIntangClose, hist_intang_additions, hist_da,
    baseAssumptions, daIntangInput, List.getD, hist_intangibles]

/-- Claim C2 (amended): for every period, historical and forecast, the
Notes intangible roll-forward satisfies
Opening + Additions + Amortisation = Closing, but the Closing balance
does NOT equal the Balance Sheet "Intangible assets (concessions)" line
in any of the ten periods. -/
theorem intang_rollforward_holds_crosscheck_fails :
    (∀ p : Fin 10, (colsAt baseAssumptions defaultToggles p.val).nIntangClose =
        (colsAt baseAssumptions defaultToggles p.val).nIntangOpen +
        (colsAt baseAssumptions defaultToggles p.val).nIntangAdd +
        (colsAt baseAssumptions defaultToggles p.val).nIntangAmort) ∧
    (∀ p : Fin 10, (colsAt baseAssumptions defaultToggles p.val).nIntangClose ≠
        (colsAt baseAssumptions defaultToggles p.val).intang) := by
  constructor
  · intro p
    fin_cases p
    · rw [colsAt0_eq]
      norm_num [histCols, histIntangClose, histIntangOpen, hist_intang_additions, hist_da,
        baseAssumptions, daIntangInput, List.getD]
    · rw [colsAt1_eq]
      norm_num [histCols, histIntangClose, histIntangOpen, hist_intang_additions, hist_da,
        baseAssumptions, daIntangInput, List.getD]
    · rw [colsAt2_eq]
      norm_num [histCols, histIntangClose, histIntangOpen, hist_intang_additions, hist_da,
        baseAssumptions, daIntangInput, List.getD]
    · rw [colsAt3_eq]
      norm_num [histCols, histIntangClose, histIntangOpen, hist_intang_additions, hist_da,
        baseAssumptions, daIntangInput, List.getD]
    · rw [colsAt4_eq]
      norm_num [histCols, histIntangClose, histIntangOpen, hist_intang_additions, hist_da,
        baseAssumptions, daIntangInput, List.getD]
    · show (colsAt baseAssumptions defaultToggles 5).nIntangClose = _ + _ + _
      rw [colsAt5_eq]; norm_num [colsF5]
    · show (colsAt baseAssumptions defaultToggles 6).nIntangClose = _ + _ + _
      rw [colsAt6_eq]; norm_num [colsF6]
    · show (colsAt baseAssumptions defaultToggles 7).nIntangClose = _ + _ + _
      rw [colsAt7_eq]; norm_num [colsF7]
    · show (colsAt baseAssumptions defaultToggles 8).nIntangClose = _ + _ + _
      rw [colsAt8_eq]; norm_num [colsF8]
    · show (colsAt baseAssumptions defaultToggles 9).nIntangClose = _ + _ + _
      rw [colsAt9_eq]; norm_num [colsF9]
  · intro p
    fin_cases p
    · rw [colsAt0_eq]
      norm_num [histCols, histIntangClose, hist_intang_additions, hist_da,
        baseAssumptions, daIntangInput, List.getD, hist_intangibles]
    · rw [colsAt1_eq]
      norm_num [histCols, histIntangClose, hist_intang_additions, hist_da,
        baseAssumptions, daIntangInput, List.getD, hist_intangibles]
    · rw [colsAt2_eq]
      norm_num [histCols, histIntangClose, hist_intang_additions, hist_da,
        baseAssumptions, daIntangInput, List.getD, hist_intangibles]
    · rw [colsAt3_eq]
      norm_num [histCols, histIntangClose, hist_intang_additions, hist_da,
        baseAssumptions, daIntangInput, List.getD, hist_intangibles]
    · rw [colsAt4_eq]
      norm_num [histCols, histIntangClose, hist_intang_additions, hist_da,
        baseAssumptions, daIntangInput, List.getD, hist_intangibles]
    · show (colsAt baseAssumptions defaultToggles 5).nIntangClose ≠ _
      rw [colsAt5_eq]; norm_num [colsF5]
    · show (colsAt baseAssumptions defaultToggles 6).nIntangClose ≠ _
      rw [colsAt6_eq]; norm_num [colsF6]
    · show (colsAt baseAssumptions defaultToggles 7).nIntangClose ≠ _
      rw [colsAt7_eq]; norm_num [colsF7]
    · show (colsAt baseAssumptions defaultToggles 8).nIntangClose ≠ _
      rw [colsAt8_eq]; norm_num [colsF8]
    · show (colsAt baseAssumptions defaultToggles 9).nIntangClose ≠ _
      rw [colsAt9_eq]; norm_num [colsF9]

/-- Claim C5 (counterexample): at FY22 (period 1) the four segment
EBITDAs sum to 2100 while the consolidated Income Statement EBITDA is
2121, so the segment-EBITDA reconciliation fails. -/
theorem segment_ebitda_fy22_mismatch :
    segEbitdaTotal 1 = 2100 ∧ hist_ebitda.getD 1 0 = 2121 ∧
    segEbitdaTotal 1 ≠ hist_ebitda.getD 1 0 := by
  norm_num [segEbitdaTotal, hist_melb_ebitda, hist_syd_ebitda, hist_bris_ebitda,
    hist_na_ebitda, hist_ebitda, hist_total_rev, hist_toll_rev, hist_other_rev,
    hist_total_opex, hist_employee, hist_road_ops, hist_corp_admin, List.getD]

/-- Claim C5 (amended): in every historical period the four segment
revenues sum exactly to the consolidated Total Revenue, but the four
segment EBITDAs never sum to the consolidated EBITDA (the differences
range between -29 and +21 A$m). -/
theorem segment_revenue_ties_ebitda_does_not :
    (∀ i : Fin 5, segRevTotal i.val = hist_total_rev.getD i.val 0) ∧
    (∀ i : Fin 5, segEbitdaTotal i.val ≠ hist_ebitda.getD i.val 0) := by
  constructor
  · intro i
    fin_cases i <;>
      norm_num [segRevTotal, hist_melb_rev, hist_syd_rev, hist_bris_rev, hist_na_rev,
        hist_total_rev, hist_toll_rev, hist_other_rev, List.getD]
  · intro i
    fin_cases i <;>
      norm_num [segEbitdaTotal, hist_melb_ebitda, hist_syd_ebitda, hist_bris_ebitda,
        hist_na_ebitda, hist_ebitda, hist_total_rev, hist_toll_rev, hist_other_rev,
        hist_total_opex, hist_employee, hist_road_ops, hist_corp_admin, List.getD]

/-- Claim C6: for every period (historical and forecast), any assumption
data and any toggle settings, the Notes debt-maturity buckets
Within-1-year + 1-2-years + 2-5-years + Over-5-years sum exactly — as an
algebraic identity over ℚ, not merely within tolerance — to Total
Borrowings, because the Over-5-years bucket is generated as the residual
Total minus the other three buckets. -/
theorem maturity_buckets_sum_to_borrowings (A : Assumptions) (t : Toggles) (p : Fin 10) :
    (colsAt A t p.val).nMatW1 + (colsAt A t p.val).nMat12 + (colsAt A t p.val).nMat25 +
      (colsAt A t p.val).nMatOver5 = (colsAt A t p.val).nTotalDebt := by
  have hs : ∀ (q : Nat) (prev : Cols),
      (forecastStep A t q prev).nMatW1 + (forecastStep A t q prev).nMat12 +
        (forecastStep A t q prev).nMat25 + (forecastStep A t q prev).nMatOver5 =
        (forecastStep A t q prev).nTotalDebt := by
    intro q prev
    simp only [forecastStep]
    ring
  have hh : ∀ i : Nat,
      (histCols A i).nMatW1 + (histCols A i).nMat12 + (histCols A i).nMat25 +
        (histCols A i).nMatOver5 = (histCols A i).nTotalDebt := by
    intro i
    simp only [histCols]
    ring
  rcases p with ⟨v, hv⟩
  interval_cases v
  · exact hh 0
  · exact hh 1
  · exact hh 2
  · exact hh 3
  · exact hh 4
  · exact hs 5 (colsAt A t 4)
  · exact hs 6 (colsAt A t 5)
  · exact hs 7 (colsAt A t 6)
  · exact hs 8 (colsAt A t 7)
  · exact hs 9 (colsAt A t 8)

/-! ### Claims C4, C7, C8: driver semantics and formula structure -/

/-- Claim C8: in every forecast column, for any assumption data (hence
for all values of the employee-cost-share and road-ops-share drivers)
and any toggles, Corporate & admin costs equals
-(Total Revenue x active opex% driver) - Employee costs - Road operating
costs, so Total Operating Expenses equals
-(Total Revenue x active opex% driver) exactly. -/
theorem opex_plug_exact (A : Assumptions) (t : Toggles) (p : Nat) (prev : Cols) :
    (forecastStep A t p prev).corp =
      -((forecastStep A t p prev).totalRev * activeVal t.opex A.opexPct p) -
        (forecastStep A t p prev).emp - (forecastStep A t p prev).road ∧
    (forecastStep A t p prev).topex =
      -((forecastStep A t p prev).totalRev * activeVal t.opex A.opexPct p) := by
  constructor <;> (simp only [forecastStep]; ring)

/-- In every column the Total Non-Current Assets line is the sum of its
four constituents and Total Borrowings is Current plus Non-current
borrowings (historical columns by the derived literal lists, forecast
columns by the generated subtotal formulas). -/
theorem colsAt_tnca_tb (A : Assumptions) (t : Toggles) (q : Nat) :
    (colsAt A t q).tnca = (colsAt A t q).ppe + (colsAt A t q).intang +
      (colsAt A t q).jv + (colsAt A t q).onca ∧
    (colsAt A t q).tb = (colsAt A t q).cd + (colsAt A t q).ncd := by
  rcases q with _ | q
  · rw [colsAt0_eq]
    constructor <;>
      norm_num [histCols, hist_total_nca, hist_ppe, hist_intangibles, hist_invest_jv,
        hist_other_nca, hist_total_borrow, hist_current_debt, hist_nc_debt, List.getD]
  · by_cases hq : q + 1 ≤ 4
    · have hq3 : q ≤ 3 := by omega
      interval_cases q <;>
        (first
          | rw [colsAt1_eq] | rw [colsAt2_eq] | rw [colsAt3_eq] | rw [colsAt4_eq]) <;>
        (constructor <;>
          norm_num [histCols, hist_total_nca, hist_ppe, hist_intangibles, hist_invest_jv,
            hist_other_nca, hist_total_borrow, hist_current_debt, hist_nc_debt, List.getD])
    · have hstep : colsAt A t (q + 1) = forecastStep A t (q + 1) (colsAt A t q) := by
        simp only [colsAt]
        rw [if_neg hq]
      rw [hstep]
      constructor <;> (simp only [forecastStep]; try ring)

/-- Claim C7: for every forecast period, any assumption data and any
toggles, the Income Statement Depreciation & amortisation formula equals
minus the prior period's closing Non-Current Assets total (the sum of
PP&E, intangibles, JV investments and other NCA) times the current
period's active D&A% driver, and Net finance costs equals minus the
prior period's closing Total Borrowings (current plus non-current) times
the current period's active cost-of-debt driver: both drivers apply to
prior-period closing balances, never current-period ones. -/
theorem da_nfc_lag_prior_period (A : Assumptions) (t : Toggles) (p : Fin 5) :
    (colsAt A t (5 + p.val)).da =
      -(((colsAt A t (4 + p.val)).ppe + (colsAt A t (4 + p.val)).intang +
          (colsAt A t (4 + p.val)).jv + (colsAt A t (4 + p.val)).onca) *
        activeVal t.da A.daPct (5 + p.val)) ∧
    (colsAt A t (5 + p.val)).nfc =
      -(((colsAt A t (4 + p.val)).cd + (colsAt A t (4 + p.val)).ncd) *
        activeVal t.cod A.codPct (5 + p.val)) := by
  have h := colsAt_tnca_tb A t (4 + p.val)
  have hstep : colsAt A t (5 + p.val) = forecastStep A t (5 + p.val) (colsAt A t (4 + p.val)) := by
    rcases p with ⟨v, hv⟩
    interval_cases v <;> rfl
  rw [hstep, ← h.1, ← h.2]
  constructor <;> (simp only [forecastStep]; ring)

/-- Claim C4: semantics of the active driver rows, and the concrete
toll-revenue scenario.  Historical cells of an active row are direct
references to the raw input; a forecast cell equals the average of the
raw input over the last three historical periods (the fixed window,
periods 2-4) when the toggle holds the trailing-average token, and the
raw input for that same forecast period under any other token.  In
particular the first forecast period's toll revenue equals prior toll
revenue x (1 + average of the last three historical toll-growth inputs)
under the trailing-average toggle, and prior toll revenue x (1 + the
FY26 toll-growth input 5.5%) under any other toggle. -/
theorem active_row_and_toll_scenario :
    (∀ (tog : String) (inp : List ℚ) (p : Nat), p < 5 → activeVal tog inp p = inp.getD p 0) ∧
    (∀ (tog : String) (inp : List ℚ) (p : Nat), 5 ≤ p → tog = "3yr Avg" →
        activeVal tog inp p = (inp.getD 2 0 + inp.getD 3 0 + inp.getD 4 0) / 3) ∧
    (∀ (tog : String) (inp : List ℚ) (p : Nat), 5 ≤ p → tog ≠ "3yr Avg" →
        activeVal tog inp p = inp.getD p 0) ∧
    (∀ t : Toggles, t.toll = "3yr Avg" →
        (colsAt baseAssumptions t 5).tollRev =
          (colsAt baseAssumptions t 4).tollRev * (1 + (22.1/100 + 8.7/100 + 6.2/100) / 3)) ∧
    (∀ t : Toggles, t.toll ≠ "3yr Avg" →
        (colsAt baseAssumptions t 5).tollRev =
          (colsAt baseAssumptions t 4).tollRev * (1 + 5.5/100)) := by
  refine ⟨?_, ?_, ?_, ?_, ?_⟩
  · intro tog inp p hp
    simp only [activeVal]
    rw [if_neg (by omega)]
  · intro tog inp p hp htok
    simp only [activeVal]
    rw [if_pos hp, if_pos htok]
  · intro tog inp p hp htok
    simp only [activeVal]
    rw [if_pos hp, if_neg htok]
  · intro t ht
    rw [show colsAt baseAssumptions t 5
          = forecastStep baseAssumptions t 5 (colsAt baseAssumptions t 4) from rfl,
        colsAt4_eq]
    simp only [forecastStep, histCols, activeVal]
    rw [if_pos (by omega), if_pos ht]
    norm_num [tollGrowthInput, hist_toll_rev, baseAssumptions, List.getD]
  · intro t ht
    rw [show colsAt baseAssumptions t 5
          = forecastStep baseAssumptions t 5 (colsAt baseAssumptions t 4) from rfl,
        colsAt4_eq]
    simp only [forecastStep, histCols, activeVal]
    rw [if_pos (by omega), if_neg ht]
    norm_num [tollGrowthInput, hist_toll_rev, baseAssumptions, List.getD]

/-- Witness for `active_row_and_toll_scenario`, instantiating each
hypothesis at concrete inputs: the toll-growth input row, period 2
(historical), period 5 (forecast) under each toggle mode, and the two
concrete toll scenarios. -/
theorem active_row_and_toll_scenario_witness :
    activeVal "Forecast" tollGrowthInput 2 = tollGrowthInput.getD 2 0 ∧
    activeVal "3yr Avg" tollGrowthInput 5 =
      (tollGrowthInput.getD 2 0 + tollGrowthInput.getD 3 0 + tollGrowthInput.getD 4 0) / 3 ∧
    activeVal "Forecast" tollGrowthInput 5 = tollGrowthInput.getD 5 0 ∧
    (colsAt baseAssumptions { defaultToggles with toll := "3yr Avg" } 5).tollRev =
      (colsAt baseAssumptions { defaultToggles with toll := "3yr Avg" } 4).tollRev *
        (1 + (22.1/100 + 8.7/100 + 6.2/100) / 3) ∧
    (colsAt baseAssumptions defaultToggles 5).tollRev =
      (colsAt baseAssumptions defaultToggles 4).tollRev * (1 + 5.5/100) :=
  ⟨active_row_and_toll_scenario.1 "Forecast" tollGrowthInput 2 (by omega),
   active_row_and_toll_scenario.2.1 "3yr Avg" tollGrowthInput 5 (by omega) rfl,
   active_row_and_toll_scenario.2.2.1 "Forecast" tollGrowthInput 5 (by omega) (by decide),
   active_row_and_toll_scenario.2.2.2.1 _ rfl,
   active_row_and_toll_scenario.2.2.2.2 _ (by decide)⟩

/-- Every reference of a formula cell in the written column range has a
strictly smaller rank. -/
theorem cellRefs_rank_bounded :
    ∀ l : Line, ∀ c < 13, ∀ x ∈ cellRefs l c, cellRank x.1 x.2 < cellRank l c := by
  intro l
  cases l <;>
    first
      | (intro c _ x hx
         simp only [cellRefs, List.not_mem_nil] at hx
         done)
      | decide

/-- Outside the written columns no cell holds a formula. -/
theorem cellRefs_nil_of_gt (l : Line) (c : Nat) (hc : 12 < c) : cellRefs l c = [] := by
  have h1 : ¬(3 ≤ c ∧ c ≤ 7) := by omega
  have h2 : ¬(8 ≤ c ∧ c ≤ 12) := by omega
  have h3 : ¬(3 ≤ c ∧ c ≤ 12) := by omega
  have h4 : ¬(4 ≤ c ∧ c ≤ 12) := by omega
  cases l <;> simp [cellRefs, h1, h2, h3, h4]

/-- Every edge of the dependency graph strictly decreases `cellRank`. -/
theorem cellRefs_rank_lt (l : Line) (c : Nat) (x : Line × Nat)
    (hx : x ∈ cellRefs l c) : cellRank x.1 x.2 < cellRank l c := by
  by_cases hc : c < 13
  · exact cellRefs_rank_bounded l c hc x hx
  · rw [cellRefs_nil_of_gt l c (by omega)] at hx
    exact absurd hx (List.not_mem_nil x)

/-- Claim C3: the dependency graph over all generated formula cells is
acyclic: whenever cell `a` reaches cell `b` through one or more formula
references, `b` has strictly smaller rank than `a` — so no cell ever
reaches itself, and in particular the Balance Sheet cash cell of a
forecast column depends, through the Cash Flow Statement's closing cash,
net change and working-capital lines, only on cells of strictly smaller
rank (prior-column cells, assumption cells, and earlier-stage
same-column cells). -/
theorem forecast_dependency_graph_acyclic (a b : Line × Nat) (h : CellReaches a b) :
    cellRank b.1 b.2 < cellRank a.1 a.2 ∧ a ≠ b := by
  have hlt : cellRank b.1 b.2 < cellRank a.1 a.2 := by
    induction h with
    | single hab => exact cellRefs_rank_lt _ _ _ hab
    | tail _ hbc ih => exact lt_trans (cellRefs_rank_lt _ _ _ hbc) ih
  refine ⟨hlt, ?_⟩
  intro hab
  rw [hab] at hlt
  exact lt_irrefl _ hlt

/-- Witness for `forecast_dependency_graph_acyclic`: the FY26 Balance
Sheet cash cell references the FY26 Cash Flow closing-cash cell, and
that edge indeed decreases the rank. -/
theorem forecast_dependency_graph_acyclic_witness :
    cellRank Line.cfCloseL 8 < cellRank Line.bsCash 8 ∧
    ((Line.bsCash, (8 : Nat)) : Line × Nat) ≠ (Line.cfCloseL, 8) :=
  forecast_dependency_graph_acyclic (Line.bsCash, 8) (Line.cfCloseL, 8)
    (Relation.TransGen.single
      (show (Line.cfCloseL, (8 : Nat)) ∈ cellRefs Line.bsCash 8 by
        simp [cellRefs]))

/-- Claim C9 (counterexample): a duplicated label does NOT abort
generation and the registry silently maps it to only one of its rows.
The Notes sheet declares the label "  Revenue" four times (the
Melbourne, Sydney, Brisbane and North America segment revenue rows, rows
13, 16, 19 and 22), and the registry built from the declarations maps
that label to row 22 alone — in particular, not to Melbourne's row 13. -/
theorem notes_duplicate_revenue_label :
    notesLabels.count "  Revenue" = 4 ∧
    rowMapOf notesLabels 5 "  Revenue" = some 22 ∧
    rowMapOf notesLabels 5 "  Revenue" ≠ some 13 := by
  decide

/-- Claim C9 (amended): duplicate labels are not a construction error:
the registry maps a duplicated label to the row of its last declaration
("  EBITDA", declared four times, maps to row 23 — North America's
EBITDA row), and the generator instead addresses the segment rows
positionally, one row below the unique segment-name labels. -/
theorem notes_registry_last_occurrence :
    notesLabels.count "  EBITDA" = 4 ∧
    rowMapOf notesLabels 5 "  EBITDA" = some 23 ∧
    rowMapOf notesLabels 5 "Melbourne (CityLink)" = some 12 ∧
    rowMapOf notesLabels 5 "Sydney" = some 15 ∧
    rowMapOf notesLabels 5 "Brisbane" = some 18 ∧
    rowMapOf notesLabels 5 "North America" = some 21 := by
  decide

/-- Claim C10: the cross-sheet row positions pre-computed from the label
lists before the Balance Sheet and Cash Flow sheets are assembled (the
Total Non-Current Assets row, the Total Borrowings row and the Closing
Cash Balance row) agree with the row positions assigned during assembly,
so every one of the generator's row-position assertions passes. -/
theorem precomputed_rows_match_assembly :
    rowMapOf bsLabelsPre 5 "Total Non-Current Assets" =
      rowMapOf bsItemLabels 5 "Total Non-Current Assets" ∧
    rowMapOf bsLabelsPre 5 "Total Non-Current Assets" = some 17 ∧
    rowMapOf bsLabelsPre 5 "Total Borrowings (current + non-current)" =
      rowMapOf bsItemLabels 5 "Total Borrowings (current + non-current)" ∧
    rowMapOf bsLabelsPre 5 "Total Borrowings (current + non-current)" = some 32 ∧
    rowMapOf cfLabelsPre 5 "Closing Cash Balance" =
      rowMapOf cfItemLabels 5 "Closing Cash Balance" ∧
    rowMapOf cfLabelsPre 5 "Closing Cash Balance" = some 26 := by
  decide
